import Mathlib

/-!
Verification of the core QP solver of this repository (a dense proximal
augmented-Lagrangian QP solver).  The imperative C++ of
`src/include/qp/proxqp/solver.hpp` and `src/include/qp/dense/helpers.hpp`
is shallowly embedded over exact rationals: Eigen vectors become `List ℚ`,
matrices become `List (List ℚ)`, and in-place mutation becomes explicit
state passing on structures mirroring `QPData`, `QPResults`, `QPWorkspace`
and `QPSettings`.

Components of the repository that are *not* part of the sources here (the
LDLᵀ engine from `ldlt/`, the line searches of `qp/proxqp/line_search.hpp`,
`std::pow`, machine epsilon, and the Ruiz preconditioner) are modelled from
the specification as an oracle record of functions (`Oracle`): the solver
is embedded parametrically in those operations, exactly as the source
consumes them through their interfaces.  The preconditioner instance used
by the solver embedding is the `IdentityPrecond` of
`src/include/qp/dense/preconditioner/identity.hpp`, whose scale/unscale
operations are all no-ops; its no-op calls are therefore omitted in the
embedding of the solver functions (each omission is noted in place).

Workspace fields that the solver never writes (the scaled problem buffers
and the norm constants established by `setup`) are grouped into a separate
read-only structure `ScaledData`; the mutable scratch lives in `QPWorkspace`.
-/

namespace ProxQP

/-- Vectors are lists of rationals (Eigen dense vectors, exact arithmetic). -/
abbrev Vec := List ℚ

/-- Matrices are row lists (row-major storage, as in the source). -/
abbrev Mat := List Vec

/-- Componentwise sum of two vectors. -/
def vadd (a b : Vec) : Vec := List.zipWith (· + ·) a b

/-- Componentwise difference of two vectors. -/
def vsub (a b : Vec) : Vec := List.zipWith (· - ·) a b

/-- Scalar multiple of a vector. -/
def smul (c : ℚ) (v : Vec) : Vec := v.map (fun a => c * a)

/-- Dot product. -/
def dotV (a b : Vec) : ℚ := (List.zipWith (· * ·) a b).sum

/-- The zero vector of a given length. -/
def zeroVec (n : ℕ) : Vec := List.replicate n 0

/-- Matrix-vector product (matrix stored by rows). -/
def matVec (M : Mat) (v : Vec) : Vec := M.map (fun r => dotV r v)

/-- Transposed matrix-vector product: `Mᵀ v`, where the result has `n`
entries (`n` = number of columns of `M`). -/
def matTVec (n : ℕ) (M : Mat) (v : Vec) : Vec :=
  (M.zip v).foldl (fun acc p => vadd acc (smul p.2 p.1)) (zeroVec n)

/-- Infinity norm `‖v‖∞` (`infty_norm` in the source). -/
def infty_norm (v : Vec) : ℚ := v.foldr (fun a r => max |a| r) 0

/-- `max2` of the source (plain maximum of two scalars). -/
def max2 (a b : ℚ) : ℚ := max a b

/-- `qp::detail::positive_part`: keep strictly positive entries, zero the rest. -/
def positive_part (v : Vec) : Vec := v.map (fun a => if 0 < a then a else 0)

/-- `qp::detail::negative_part`: keep strictly negative entries, zero the rest. -/
def negative_part (v : Vec) : Vec := v.map (fun a => if a < 0 then a else 0)

/-- Eigen's `select` over a boolean mask against the zero vector. -/
def selectV (mask : List Bool) (v : Vec) : Vec :=
  List.zipWith (fun b x => if b then x else (0 : ℚ)) mask v

/-- Overwrite the slice of `v` starting at `start` with `xs`
(`v.segment(start, xs.size()) = xs` in Eigen). -/
def setRange (v : Vec) (start : ℕ) (xs : Vec) : Vec :=
  v.take start ++ xs ++ v.drop (start + xs.length)

/-- Read the slice `v.segment(start, len)`. -/
def segV (v : Vec) (start len : ℕ) : Vec := (v.drop start).take len

/-- Apply an index-aware function to each list element, indices starting at `i`. -/
def mapIdxFrom {α : Type} (f : ℕ → α → α) : ℕ → List α → List α
  | _, [] => []
  | i, a :: t => f i a :: mapIdxFrom f (i + 1) t

/-- Add `c` to the first `n` diagonal entries of a square matrix
(`kkt.diagonal().head(n).array() += c`). -/
def addDiagHead (M : Mat) (n : ℕ) (c : ℚ) : Mat :=
  mapIdxFrom (fun i row => if i < n then row.set i (row.getD i 0 + c) else row) 0 M

/-- Set diagonal entries `start ≤ i < start + len` of a square matrix to `c`
(`kkt.diagonal().segment(start, len).array() = c`). -/
def setDiagSeg (M : Mat) (start len : ℕ) (c : ℚ) : Mat :=
  mapIdxFrom (fun i row => if start ≤ i ∧ i < start + len then row.set i c else row) 0 M

/-- Solver status (modelled from the spec: the `Results`/`info.status` field
of `qp/results.hpp` is not among the sources; spec section 4.9 gives the
states Iterating, Solved, MaxIterReached). -/
inductive QPStatus
  | iterating
  | solvedStatus
  | maxIterReachedStatus
deriving DecidableEq, Repr

/-- Control-flow outcome of the embedded outer loop: either the solved
break was taken, or the iteration budget was exhausted. -/
inductive SolveOutcome
  | solvedOutcome
  | maxIterOutcome
deriving DecidableEq, Repr

/-- Initial-guess policy (`qp/settings.hpp`, as consumed by
`src/include/qp/dense/helpers.hpp`). -/
inductive InitialGuessStatus
  | EQUALITY_CONSTRAINED_INITIAL_GUESS
  | COLD_START_WITH_PREVIOUS_RESULT
  | NO_INITIAL_GUESS
  | WARM_START
  | WARM_START_WITH_PREVIOUS_RESULT
deriving DecidableEq, Repr

/-- Preconditioner directive passed to `setup`. -/
inductive PreconditionerStatus
  | EXECUTE
  | IDENTITY
  | KEEP
deriving DecidableEq, Repr

/-- Problem data (`qp::QPData` / `Model`): dimensions and problem matrices. -/
structure QPData where
  dim : ℕ
  n_eq : ℕ
  n_in : ℕ
  H : Mat
  g : Vec
  A : Mat
  b : Vec
  C : Mat
  u : Vec
  l : Vec
deriving Repr

/-- Solver settings (`qp::QPSettings`); only the fields read by the
embedded sources appear. -/
structure QPSettings where
  eps_abs : ℚ
  eps_rel : ℚ
  eps_IG : ℚ
  eps_refact : ℚ
  alpha_bcl : ℚ
  beta_bcl : ℚ
  mu_max_eq : ℚ
  mu_max_in : ℚ
  mu_max_eq_inv : ℚ
  mu_max_in_inv : ℚ
  mu_update_factor : ℚ
  mu_update_inv_factor : ℚ
  cold_reset_mu_eq : ℚ
  cold_reset_mu_in : ℚ
  cold_reset_mu_eq_inv : ℚ
  cold_reset_mu_in_inv : ℚ
  refactor_rho_threshold : ℚ
  refactor_dual_feasibility_threshold : ℚ
  max_iter : ℕ
  max_iter_in : ℕ
  nb_iterative_refinement : ℕ
  initial_guess : InitialGuessStatus
deriving Repr

/-- Solver results (`qp::QPResults`): iterates, proximal parameters, the
active-set size `n_c`, counters, objective, and a `status` field modelled
from the spec (`qp/results.hpp` is not among the sources). -/
structure QPResults where
  x : Vec
  y : Vec
  z : Vec
  rho : ℚ
  mu_eq : ℚ
  mu_in : ℚ
  mu_eq_inv : ℚ
  mu_in_inv : ℚ
  n_c : ℕ
  n_ext : ℕ
  n_tot : ℕ
  n_mu_change : ℕ
  objValue : ℚ
  status : QPStatus
deriving Repr

/-- Read-only part of the workspace: the scaled problem buffers and the norm
constants, written only by `setup` (`src/include/qp/dense/helpers.hpp`) and
never written by any function of `src/include/qp/proxqp/solver.hpp`. -/
structure ScaledData where
  H_scaled : Mat
  g_scaled : Vec
  A_scaled : Mat
  b_scaled : Vec
  C_scaled : Mat
  u_scaled : Vec
  l_scaled : Vec
  primal_feasibility_rhs_1_eq : ℚ
  primal_feasibility_rhs_1_in_u : ℚ
  primal_feasibility_rhs_1_in_l : ℚ
  dual_feasibility_rhs_2 : ℚ
  correction_guess_rhs_g : ℚ
deriving Repr

/-- Mutable workspace scratch (`qp::QPWorkspace` minus the read-only part),
parameterised over the abstract LDLᵀ factorization state `σ`. -/
structure QPWorkspace (σ : Type) where
  x_prev : Vec
  y_prev : Vec
  z_prev : Vec
  kkt : Mat
  current_bijection_map : List ℕ
  ldl : σ
  rhs : Vec
  dw_aug : Vec
  err : Vec
  primal_residual_eq_scaled : Vec
  primal_residual_in_scaled_up : Vec
  primal_residual_in_scaled_low : Vec
  primal_residual_in_scaled_up_plus_alphaCdx : Vec
  primal_residual_in_scaled_low_plus_alphaCdx : Vec
  dual_residual_scaled : Vec
  CTz : Vec
  active_part_z : Vec
  Hdx : Vec
  Adx : Vec
  Cdx : Vec
  active_set_up : List Bool
  active_set_low : List Bool
  active_inequalities : List Bool
  alpha : ℚ

/-- Operations external to the sources, consumed through their interfaces.
Modelled from the spec: the LDLᵀ engine operations (spec section 4.1:
factorize, solve_in_place, insert_at, remove_at, rank_one_update, operating
on an abstract factorization state `σ`), the exact line searches of
`qp/proxqp/line_search.hpp` (spec sections 4.6 and 4.7: each returns a step
length from the current state), `std::pow`, and machine epsilon. -/
structure Oracle (σ : Type) where
  ldlFactorize : σ → Mat → σ
  ldlSolve : σ → Vec → Vec
  ldlInsertAt : σ → ℕ → Vec → σ
  ldlRemoveAt : σ → ℕ → σ
  ldlRankOneUpdate : σ → Vec → ℚ → σ
  initialGuessAlpha : QPResults → QPWorkspace σ → ℚ
  correctionGuessAlpha : QPResults → QPWorkspace σ → ℚ
  powFn : ℚ → ℚ → ℚ
  machineEps : ℚ

/-- Row `i` of the scaled inequality matrix (`qpwork.C_scaled.row(i)`). -/
def rowC (sc : ScaledData) (i : ℕ) : Vec := sc.C_scaled.getD i []

/-! ## Residual evaluators (`global_primal_residual`, `global_dual_residual`)

The preconditioner is the identity variant
(`src/include/qp/dense/preconditioner/identity.hpp`), so the
scale/unscale calls of the source are no-ops and are dropped; the pure
computational cores are factored out so the same value can be recomputed
from a state in theorem statements. -/

/-- Pure core of `global_primal_residual`: the value
`A_scaled · x` (which with the identity preconditioner is also the unscaled
equality product). -/
def primal_eq_product (sc : ScaledData) (x : Vec) : Vec := matVec sc.A_scaled x

/-- Pure core of `global_primal_residual`: the value `C_scaled · x`. -/
def primal_in_product (sc : ScaledData) (x : Vec) : Vec := matVec sc.C_scaled x

/-- Pure core: the inequality violation vector
`[Cx − u]⁺ + [Cx − l]⁻` built from the model bounds (source line using
`qpmodel.u` and `qpmodel.l` on the unscaled product). -/
def primal_in_violation (m : QPData) (sc : ScaledData) (x : Vec) : Vec :=
  vadd (positive_part (vsub (primal_in_product sc x) m.u))
       (negative_part (vsub (primal_in_product sc x) m.l))

/-- Pure core: the equality residual `A x − b`. -/
def primal_eq_residual (m : QPData) (sc : ScaledData) (x : Vec) : Vec :=
  vsub (primal_eq_product sc x) m.b

/-- The primal feasibility left-hand side
`max(‖Ax − b‖∞, ‖[Cx−u]⁺ + [Cx−l]⁻‖∞)` as computed by
`global_primal_residual`. -/
def primal_lhs_of (m : QPData) (sc : ScaledData) (x : Vec) : ℚ :=
  max2 (infty_norm (primal_eq_residual m sc x)) (infty_norm (primal_in_violation m sc x))

/-- `primal_feasibility_eq_rhs_0 = ‖Ax‖∞` as computed by
`global_primal_residual`. -/
def primal_rhs0_eq_of (sc : ScaledData) (x : Vec) : ℚ :=
  infty_norm (primal_eq_product sc x)

/-- `primal_feasibility_in_rhs_0 = ‖Cx‖∞` as computed by
`global_primal_residual`. -/
def primal_rhs0_in_of (sc : ScaledData) (x : Vec) : ℚ :=
  infty_norm (primal_in_product sc x)

/-- Output record of `global_primal_residual`: the five scalar outputs of
the source function together with the updated workspace. -/
structure PrimalResidualOut (σ : Type) where
  lhs : ℚ
  rhs0_eq : ℚ
  rhs0_in : ℚ
  eq_lhs : ℚ
  in_lhs : ℚ
  wk : QPWorkspace σ

/-- `qp::detail::global_primal_residual` (solver.hpp, identity
preconditioner: the unscale/scale calls are no-ops).  Writes the residual
caches `primal_residual_eq_scaled` (= `Ax − b`),
`primal_residual_in_scaled_up` (= `Cx`) and
`primal_residual_in_scaled_low` (= the violation vector) and returns the
norms. -/
def global_primal_residual {σ : Type} (m : QPData) (sc : ScaledData)
    (res : QPResults) (wk : QPWorkspace σ) : PrimalResidualOut σ :=
  { lhs := primal_lhs_of m sc res.x
    rhs0_eq := primal_rhs0_eq_of sc res.x
    rhs0_in := primal_rhs0_in_of sc res.x
    eq_lhs := infty_norm (primal_eq_residual m sc res.x)
    in_lhs := infty_norm (primal_in_violation m sc res.x)
    wk := { wk with
      primal_residual_eq_scaled := primal_eq_residual m sc res.x
      primal_residual_in_scaled_up := primal_in_product sc res.x
      primal_residual_in_scaled_low := primal_in_violation m sc res.x } }

/-- Pure core of `global_dual_residual`: the dual residual vector
`g + Hx + Aᵀy + Cᵀz`, accumulated in the source's order. -/
def dual_residual_vec (m : QPData) (sc : ScaledData) (res : QPResults) : Vec :=
  vadd (vadd (vadd sc.g_scaled (matVec sc.H_scaled res.x))
             (matTVec m.dim sc.A_scaled res.y))
       (matTVec m.dim sc.C_scaled res.z)

/-- The dual feasibility left-hand side `‖g + Hx + Aᵀy + Cᵀz‖∞`. -/
def dual_lhs_of (m : QPData) (sc : ScaledData) (res : QPResults) : ℚ :=
  infty_norm (dual_residual_vec m sc res)

/-- `dual_feasibility_rhs_0 = ‖Hx‖∞`. -/
def dual_rhs0_of (sc : ScaledData) (res : QPResults) : ℚ :=
  infty_norm (matVec sc.H_scaled res.x)

/-- `dual_feasibility_rhs_1 = ‖Aᵀy‖∞`. -/
def dual_rhs1_of (m : QPData) (sc : ScaledData) (res : QPResults) : ℚ :=
  infty_norm (matTVec m.dim sc.A_scaled res.y)

/-- `dual_feasibility_rhs_3 = ‖Cᵀz‖∞`. -/
def dual_rhs3_of (m : QPData) (sc : ScaledData) (res : QPResults) : ℚ :=
  infty_norm (matTVec m.dim sc.C_scaled res.z)

/-- Output record of `global_dual_residual`. -/
structure DualResidualOut (σ : Type) where
  lhs : ℚ
  rhs0 : ℚ
  rhs1 : ℚ
  rhs3 : ℚ
  wk : QPWorkspace σ

/-- `qp::detail::global_dual_residual` (identity preconditioner).  Writes
the caches `dual_residual_scaled` and `CTz` and returns the norms. -/
def global_dual_residual {σ : Type} (m : QPData) (sc : ScaledData)
    (res : QPResults) (wk : QPWorkspace σ) : DualResidualOut σ :=
  { lhs := dual_lhs_of m sc res
    rhs0 := dual_rhs0_of sc res
    rhs1 := dual_rhs1_of m sc res
    rhs3 := dual_rhs3_of m sc res
    wk := { wk with
      dual_residual_scaled := dual_residual_vec m sc res
      CTz := matTVec m.dim sc.C_scaled res.z } }

/-! ## Active-set change

`qp::line_search::active_set_change` lives in `qp/proxqp/line_search.hpp`,
which is not among the sources.  Modelled from the spec: section 4.3 fixes
removals of newly-inactive rows in descending slot order, then insertions
of newly-active rows in ascending row index at slot `n_c`, each insertion
passing the scaled `C` row padded with zeros and a diagonal entry
`−1/μ_in`, with the bijection map maintained as a permutation whose values
below `n_c` are exactly the active rows. -/

/-- Modelled from the spec: remove the active row `i` (slot `j =
current_bijection_map i`) from the factorization; every map value above `j`
shifts down one slot and row `i` is parked at the largest inactive value. -/
def remove_active_row {σ : Type} (m : QPData) (O : Oracle σ) (i : ℕ)
    (res : QPResults) (wk : QPWorkspace σ) : QPResults × QPWorkspace σ :=
  let j := wk.current_bijection_map.getD i 0
  let ldl := O.ldlRemoveAt wk.ldl (m.dim + m.n_eq + j)
  let bij := ((wk.current_bijection_map.map
      (fun v => if j < v then v - 1 else v)).set i (m.n_in - 1))
  ({ res with n_c := res.n_c - 1 },
   { wk with ldl := ldl, current_bijection_map := bij })

/-- Modelled from the spec: among rows that are active in the map but no
longer in the target set, the one with the largest slot (processed first). -/
def removal_candidate {σ : Type} (res : QPResults) (wk : QPWorkspace σ)
    (n_in : ℕ) : Option ℕ :=
  (List.range n_in).foldl
    (fun best i =>
      if wk.current_bijection_map.getD i 0 < res.n_c ∧
         wk.active_inequalities.getD i false = false then
        match best with
        | none => some i
        | some k =>
          if wk.current_bijection_map.getD k 0 < wk.current_bijection_map.getD i 0 then
            some i
          else best
      else best)
    none

/-- Modelled from the spec: repeatedly remove the active-but-undesired row
with the largest slot (descending slot order). -/
def remove_loop {σ : Type} (m : QPData) (O : Oracle σ) :
    ℕ → QPResults → QPWorkspace σ → QPResults × QPWorkspace σ
  | 0, res, wk => (res, wk)
  | fuel + 1, res, wk =>
    match removal_candidate res wk m.n_in with
    | none => (res, wk)
    | some i =>
      let p := remove_active_row m O i res wk
      remove_loop m O fuel p.1 p.2

/-- Modelled from the spec: insert row `i` at slot `n_c` with the padded
scaled `C` row and diagonal entry `−1/μ_in`; map values in `[n_c, old
value)` shift up one slot. -/
def add_active_row {σ : Type} (m : QPData) (sc : ScaledData) (O : Oracle σ)
    (i : ℕ) (res : QPResults) (wk : QPWorkspace σ) : QPResults × QPWorkspace σ :=
  let v := wk.current_bijection_map.getD i 0
  let col := (setRange (zeroVec (m.dim + m.n_eq + res.n_c + 1)) 0 (rowC sc i)).set
      (m.dim + m.n_eq + res.n_c) (-res.mu_in_inv)
  let ldl := O.ldlInsertAt wk.ldl (m.dim + m.n_eq + res.n_c) col
  let bij := ((wk.current_bijection_map.map
      (fun w => if res.n_c ≤ w ∧ w < v then w + 1 else w)).set i res.n_c)
  ({ res with n_c := res.n_c + 1 },
   { wk with ldl := ldl, current_bijection_map := bij })

/-- Modelled from the spec: `qp::line_search::active_set_change` — apply
removals (descending slot order), then insert newly active rows in
ascending row index. -/
def active_set_change {σ : Type} (m : QPData) (sc : ScaledData) (O : Oracle σ)
    (res : QPResults) (wk : QPWorkspace σ) : QPResults × QPWorkspace σ :=
  let p := remove_loop m O m.n_in res wk
  (List.range m.n_in).foldl
    (fun (p : QPResults × QPWorkspace σ) i =>
      if p.2.active_inequalities.getD i false = true ∧
         ¬ p.2.current_bijection_map.getD i 0 < p.1.n_c then
        add_active_row m sc O i p.1 p.2
      else p)
    p

/-! ## Inner linear solve: residual, refinement loop, fallback refactorization
(`iterative_residual`, `iterative_solve_with_permut_fact`, `refactorize`,
`mu_update` of solver.hpp). -/

/-- `qp::detail::iterative_residual`: residual of the regularized KKT system
`err = rhs − M·dw` over the first `inner` coordinates, computed with the
explicit scaled data, the diagonal shifts `ρ`, `−1/μ_eq`, `−1/μ_in` and the
active rows of `C` selected through the bijection map. -/
def iterative_residual (m : QPData) (sc : ScaledData) (res : QPResults)
    (bij : List ℕ) (rhs dw errPrev : Vec) (inner : ℕ) : Vec :=
  let dwh := dw.take m.dim
  let dwe := segV dw m.dim m.n_eq
  let e0 := setRange errPrev 0 (rhs.take inner)
  let e1 := setRange e0 0 (vsub (e0.take m.dim) (matVec sc.H_scaled dwh))
  let e2 := setRange e1 0 (vsub (e1.take m.dim) (smul res.rho dwh))
  let e3 := setRange e2 0 (vsub (e2.take m.dim) (matTVec m.dim sc.A_scaled dwe))
  let e4 := (List.range m.n_in).foldl
    (fun e i =>
      let j := bij.getD i 0
      if j < res.n_c then
        let e' := setRange e 0
          (vsub (e.take m.dim) (smul (dw.getD (m.dim + m.n_eq + j) 0) (rowC sc i)))
        e'.set (m.dim + m.n_eq + j)
          (e'.getD (m.dim + m.n_eq + j) 0 -
            (dotV (rowC sc i) dwh - dw.getD (m.dim + m.n_eq + j) 0 * res.mu_in_inv))
      else e)
    e3
  setRange e4 m.dim
    (vsub (segV e4 m.dim m.n_eq)
          (vsub (matVec sc.A_scaled dwh) (smul res.mu_eq_inv dwe)))

/-- Exit reason of the iterative-refinement while-loop: the `while`
condition became false (`converged`), the iteration-count `break`
(`budget`), or the `it_stability == 2` `break` (`stalled`). -/
inductive RefineReason
  | converged
  | budget
  | stalled
deriving DecidableEq, Repr

/-- Result of the refinement loop; `hist` records the residual norm after
the initial solve and after each refinement pass, most recent first (a
specification-side trace: it does not influence the computation). -/
structure RefineOut (σ : Type) where
  dw : Vec
  err : Vec
  it : ℕ
  it_stability : ℕ
  reason : RefineReason
  hist : List ℚ
deriving Repr

/-- The `while (‖err‖∞ ≥ eps)` refinement loop of
`iterative_solve_with_permut_fact` (solver.hpp).  `k` counts the remaining
iterations before the `it >= nb_iterative_refinement` break (`k =
nb_iterative_refinement − it` at entry); each pass re-solves on the
residual, adds the correction into `dw`, recomputes the residual, and
advances the stability counter when the new norm strictly exceeds the
previous one, resetting it otherwise; the loop breaks when the counter
reaches 2. -/
def refine_loop {σ : Type} (m : QPData) (sc : ScaledData) (O : Oracle σ)
    (eps : ℚ) (inner : ℕ) (res : QPResults) (bij : List ℕ) (rhs : Vec)
    (ldl : σ) :
    ℕ → ℕ → ℕ → Vec → Vec → ℚ → List ℚ → RefineOut σ
  | 0, it, stab, dw, err, _, hist =>
    if infty_norm (err.take inner) < eps then
      ⟨dw, err, it, stab, .converged, hist⟩
    else
      ⟨dw, err, it, stab, .budget, hist⟩
  | k + 1, it, stab, dw, err, preverr, hist =>
    if infty_norm (err.take inner) < eps then
      ⟨dw, err, it, stab, .converged, hist⟩
    else
      let it' := it + 1
      let sol := O.ldlSolve ldl (err.take inner)
      let dw' := setRange dw 0 (vadd (dw.take inner) sol)
      let errZ := setRange err 0 (zeroVec inner)
      let err' := iterative_residual m sc res bij rhs dw' errZ inner
      let e := infty_norm (err'.take inner)
      let stab' := if preverr < e then stab + 1 else 0
      if stab' = 2 then ⟨dw', err', it', stab', .stalled, e :: hist⟩
      else refine_loop m sc O eps inner res bij rhs ldl k it' stab' dw' err' e (e :: hist)

/-- The active-column insertion double loop shared by `refactorize` and the
refactorization fallback of `iterative_solve_with_permut_fact`: for each
slot `j < n_c`, the row `i` with `current_bijection_map(i) = j` is inserted
at position `dim + n_eq + j` with diagonal entry `−1/μ_in`. -/
def insert_active_cols {σ : Type} (m : QPData) (sc : ScaledData) (O : Oracle σ)
    (res : QPResults) (bij : List ℕ) (ldl : σ) : σ :=
  (List.range res.n_c).foldl
    (fun ldl j =>
      (List.range m.n_in).foldl
        (fun ldl i =>
          if bij.getD i 0 = j then
            let col := (setRange (zeroVec (m.dim + m.n_eq + res.n_c)) 0
                (rowC sc i)).set (m.dim + m.n_eq + j) (-res.mu_in_inv)
            O.ldlInsertAt ldl (m.n_eq + m.dim + j) col
          else ldl)
        ldl)
    ldl

/-- `qp::detail::iterative_solve_with_permut_fact`: initial solve, residual,
refinement loop; if the residual still exceeds `max(eps, eps_refact)`, the
KKT matrix is refactored from scratch (equality diagonal reset to
`−1/μ_eq`, active columns re-inserted) and the solve and refinement loop
run once more; finally the first `inner` entries of `rhs` are zeroed. -/
def iterative_solve_with_permut_fact {σ : Type} (S : QPSettings) (m : QPData)
    (sc : ScaledData) (O : Oracle σ) (eps : ℚ) (inner : ℕ)
    (res : QPResults) (wk : QPWorkspace σ) : QPWorkspace σ :=
  let L := m.dim + m.n_eq + m.n_in
  let err0 := zeroVec L
  let dw1 := setRange wk.dw_aug 0 (wk.rhs.take inner)
  let dw2 := setRange dw1 0 (O.ldlSolve wk.ldl (dw1.take inner))
  let err1 := iterative_residual m sc res wk.current_bijection_map wk.rhs dw2 err0 inner
  let pe := infty_norm (err1.take inner)
  let r1 := refine_loop m sc O eps inner res wk.current_bijection_map wk.rhs wk.ldl
      (S.nb_iterative_refinement - 1) 1 0 dw2 err1 pe [pe]
  if max2 eps S.eps_refact ≤ infty_norm (r1.err.take inner) then
    let kkt1 := setDiagSeg wk.kkt m.dim m.n_eq (-res.mu_eq_inv)
    let ldl1 := O.ldlFactorize wk.ldl kkt1
    let ldl2 := insert_active_cols m sc O res wk.current_bijection_map ldl1
    let dw3 := setRange (zeroVec L) 0 (wk.rhs.take inner)
    let dw4 := setRange dw3 0 (O.ldlSolve ldl2 (dw3.take inner))
    let err2 := iterative_residual m sc res wk.current_bijection_map wk.rhs dw4 r1.err inner
    let pe2 := infty_norm (err2.take inner)
    let r2 := refine_loop m sc O eps inner res wk.current_bijection_map wk.rhs ldl2
        (S.nb_iterative_refinement - 1) 1 0 dw4 err2 pe2 [pe2]
    { wk with
      dw_aug := r2.dw, err := r2.err, kkt := kkt1, ldl := ldl2,
      rhs := setRange wk.rhs 0 (zeroVec inner) }
  else
    { wk with
      dw_aug := r1.dw, err := r1.err,
      rhs := setRange wk.rhs 0 (zeroVec inner) }

/-- `qp::detail::refactorize`: shift the primal diagonal of the KKT matrix
by `rho_new − rho`, reset the equality diagonal to `−1/μ_eq`, factorize
from scratch, re-insert the active inequality columns, and zero `dw_aug`. -/
def refactorize {σ : Type} (m : QPData) (sc : ScaledData) (O : Oracle σ)
    (res : QPResults) (wk : QPWorkspace σ) (rho_new : ℚ) : QPWorkspace σ :=
  let kkt1 := addDiagHead wk.kkt m.dim (rho_new - res.rho)
  let kkt2 := setDiagSeg kkt1 m.dim m.n_eq (-res.mu_eq_inv)
  let ldl1 := O.ldlFactorize wk.ldl kkt2
  let ldl2 := insert_active_cols m sc O res wk.current_bijection_map ldl1
  { wk with kkt := kkt2, ldl := ldl2, dw_aug := zeroVec (m.dim + m.n_eq + m.n_in) }

/-- `qp::detail::mu_update`: the diagonal shifts from a `μ` change, applied
as rank-one updates along basis vectors of the equality block and of the
active-inequality block. -/
def mu_update {σ : Type} (m : QPData) (O : Oracle σ) (res : QPResults)
    (wk : QPWorkspace σ) (mu_eq_new_inv mu_in_new_inv : ℚ) : QPWorkspace σ :=
  let len := m.dim + m.n_eq + res.n_c
  let dw0 := setRange wk.dw_aug 0 (zeroVec len)
  let p1 :=
    if 0 < m.n_eq then
      let diff := res.mu_eq_inv - mu_eq_new_inv
      (List.range m.n_eq).foldl
        (fun (p : Vec × σ) i =>
          let d := p.1.set (m.dim + i) 1
          let ldl := O.ldlRankOneUpdate p.2 (d.take len) diff
          (d.set (m.dim + i) 0, ldl))
        (dw0, wk.ldl)
    else (dw0, wk.ldl)
  let p2 :=
    if 0 < res.n_c then
      let diff := res.mu_in_inv - mu_in_new_inv
      (List.range res.n_c).foldl
        (fun (p : Vec × σ) i =>
          let d := p.1.set (m.dim + m.n_eq + i) 1
          let ldl := O.ldlRankOneUpdate p.2 (d.take len) diff
          (d.set (m.dim + m.n_eq + i) 0, ldl))
        p1
    else p1
  { wk with dw_aug := p2.1, ldl := p2.2 }

/-! ## Inner steps: initial guess, Newton step, correction guess
(solver.hpp `compute_primal_dual_residual`, `newton_step`, `initial_guess`,
`correction_guess`). -/

/-- Negation of a vector. -/
def negV (v : Vec) : Vec := v.map (fun a => -a)

/-- The mask `!a && !b` of two boolean masks (Eigen's
`(!low.array() && !up.array())`). -/
def maskNor (a b : List Bool) : List Bool :=
  List.zipWith (fun p q => !p && !q) a b

/-- `qp::detail::compute_primal_dual_residual`: the saddle-point error of
the current iterate, computed from (and mutating) the cached residual
vectors exactly as the source does. -/
def compute_primal_dual_residual {σ : Type} (m : QPData) (sc : ScaledData)
    (res : QPResults) (wk : QPWorkspace σ) : ℚ × QPWorkspace σ :=
  let pu := vsub wk.primal_residual_in_scaled_up (smul res.mu_in_inv res.z)
  let pl := vsub wk.primal_residual_in_scaled_low (smul res.mu_in_inv res.z)
  let prim_eq_e := infty_norm wk.primal_residual_eq_scaled
  let dres := vadd wk.dual_residual_scaled (matTVec m.dim sc.C_scaled res.z)
  let dual_e := infty_norm dres
  let err1 := max2 prim_eq_e dual_e
  let upACdx := vadd (positive_part pu) (negative_part pl)
  let asu := res.z.map (fun a => decide (0 < a))
  let asl := res.z.map (fun a => decide (a < 0))
  let apz := vadd (vadd (selectV asu pu) (selectV asl pl))
      (selectV (maskNor asl asu) upACdx)
  (max2 err1 (infty_norm apz),
   { wk with
     primal_residual_in_scaled_up := pu
     primal_residual_in_scaled_low := pl
     dual_residual_scaled := dres
     primal_residual_in_scaled_up_plus_alphaCdx := upACdx
     active_set_up := asu
     active_set_low := asl
     active_part_z := apz })

/-- Result of `initial_guess`: the returned saddle-point error and the
mutated results/workspace. -/
structure IGOut (σ : Type) where
  err : ℚ
  res : QPResults
  wk : QPWorkspace σ

/-- `qp::detail::initial_guess` (identity preconditioner: the
scale/unscale calls on `ze` and the residuals are no-ops).  Builds the
candidate active set from `C x + z_e/μ_in` against the model bounds,
solves the permuted KKT system, permutes the step back through the
bijection map, line-searches (step length supplied by the oracle, the line
search living outside the sources), updates `(x, y, z)` and the residual
caches, and returns the post-step saddle-point error — forced to 1 when
`|α| < 10⁻¹⁰`. -/
def initial_guess {σ : Type} (S : QPSettings) (m : QPData) (sc : ScaledData)
    (O : Oracle σ) (res : QPResults) (wk : QPWorkspace σ) (ze : Vec)
    (eps_int : ℚ) : IGOut σ :=
  let L := m.dim + m.n_eq + m.n_in
  let pu1 := vadd wk.primal_residual_in_scaled_up (smul res.mu_in_inv ze)
  let pu2 := vsub pu1 m.u
  let pl2 := vsub pu1 m.l
  let asu := pu2.map (fun a => decide (0 ≤ a))
  let asl := pl2.map (fun a => decide (a ≤ 0))
  let ai := List.zipWith or asu asl
  let pu3 := vsub pu2 (smul res.mu_in_inv ze)
  let pl3 := vsub pl2 (smul res.mu_in_inv ze)
  let inner := m.dim + m.n_eq + ai.count true
  let wk1 := { wk with
    primal_residual_in_scaled_up := pu3
    primal_residual_in_scaled_low := pl3
    active_set_up := asu
    active_set_low := asl
    active_inequalities := ai
    rhs := zeroVec L
    active_part_z := zeroVec m.n_in }
  let p := active_set_change m sc O res wk1
  let res1 := p.1
  let wk2 := p.2
  let rhs1 := setRange wk2.rhs 0 (negV wk2.dual_residual_scaled)
  let rhs2 := setRange rhs1 m.dim (negV wk2.primal_residual_eq_scaled)
  let rhs3 := (List.range m.n_in).foldl
    (fun rhs i =>
      let j := wk2.current_bijection_map.getD i 0
      if j < res1.n_c then
        if asu.getD i false then
          rhs.set (m.dim + m.n_eq + j) (-(pu3.getD i 0))
        else if asl.getD i false then
          rhs.set (m.dim + m.n_eq + j) (-(pl3.getD i 0))
        else rhs
      else
        setRange rhs 0 (vadd (rhs.take m.dim) (smul (res1.z.getD i 0) (rowC sc i))))
    rhs2
  let wk3 := iterative_solve_with_permut_fact S m sc O eps_int inner res1
      { wk2 with rhs := rhs3 }
  let apz := (List.range m.n_in).map
    (fun j =>
      let i := wk3.current_bijection_map.getD j 0
      if i < res1.n_c then wk3.dw_aug.getD (m.dim + m.n_eq + i) 0
      else -(res1.z.getD j 0))
  let dw1 := setRange wk3.dw_aug (m.dim + m.n_eq) apz
  let pu4 := vadd pu3 (smul res1.mu_in_inv ze)
  let pl4 := vadd pl3 (smul res1.mu_in_inv ze)
  let dwh := dw1.take m.dim
  let dwe := segV dw1 m.dim m.n_eq
  let adx := vsub (matVec sc.A_scaled dwh) (smul res1.mu_eq_inv dwe)
  let hdx := vadd (vadd (matVec sc.H_scaled dwh) (matTVec m.dim sc.A_scaled dwe))
      (smul res1.rho dwh)
  let cdx := matVec sc.C_scaled dwh
  let dres := vsub wk3.dual_residual_scaled (matTVec m.dim sc.C_scaled ze)
  let wk4 := { wk3 with
    dw_aug := dw1
    primal_residual_in_scaled_up := pu4
    primal_residual_in_scaled_low := pl4
    Adx := adx
    Hdx := hdx
    Cdx := cdx
    dual_residual_scaled := dres
    active_part_z := apz }
  let alpha := O.initialGuessAlpha res1 wk4
  let pu5 := vadd pu4 (smul alpha cdx)
  let pl5 := vadd pl4 (smul alpha cdx)
  let asu2 := pu5.map (fun a => decide (0 ≤ a))
  let asl2 := pl5.map (fun a => decide (a ≤ 0))
  let ai2 := List.zipWith or asu2 asl2
  let x' := vadd res1.x (smul alpha dwh)
  let y' := vadd res1.y (smul alpha dwe)
  let apz2 := vadd res1.z (smul alpha (segV dw1 (m.dim + m.n_eq) m.n_in))
  let upP := positive_part apz2
  let lowP := negative_part apz2
  let z' := vadd (vadd (selectV asu2 upP) (selectV asl2 lowP))
      (selectV (maskNor asl2 asu2) apz2)
  let pe' := vadd wk4.primal_residual_eq_scaled (smul alpha adx)
  let dres2 := vadd dres (smul alpha hdx)
  let res2 := { res1 with x := x', y := y', z := z' }
  let wk5 := { wk4 with
    alpha := alpha
    primal_residual_in_scaled_up := pu5
    primal_residual_in_scaled_low := pl5
    active_set_up := asu2
    active_set_low := asl2
    active_inequalities := ai2
    active_part_z := apz2
    primal_residual_in_scaled_up_plus_alphaCdx := upP
    primal_residual_in_scaled_low_plus_alphaCdx := lowP
    primal_residual_eq_scaled := pe'
    dual_residual_scaled := dres2
    dw_aug := zeroVec L }
  let q := compute_primal_dual_residual m sc res2 wk5
  let err := if |alpha| < 1 / 10 ^ 10 then (1 : ℚ) else q.1
  ⟨err, res2, q.2⟩

/-- `qp::detail::newton_step`: active set from strict residual signs, rhs
top block `−dual_residual`, active-set change, permuted KKT solve. -/
def newton_step {σ : Type} (S : QPSettings) (m : QPData) (sc : ScaledData)
    (O : Oracle σ) (eps : ℚ) (res : QPResults) (wk : QPWorkspace σ) :
    QPResults × QPWorkspace σ :=
  let asu := wk.primal_residual_in_scaled_up.map (fun a => decide (0 < a))
  let asl := wk.primal_residual_in_scaled_low.map (fun a => decide (a < 0))
  let ai := List.zipWith or asu asl
  let inner := m.dim + m.n_eq + ai.count true
  let L := m.dim + m.n_eq + m.n_in
  let rhs0 := zeroVec L
  let rhs1 := setRange rhs0 0 (vsub (rhs0.take m.dim) wk.dual_residual_scaled)
  let wk1 := { wk with
    active_set_up := asu
    active_set_low := asl
    active_inequalities := ai
    rhs := rhs1
    dw_aug := zeroVec L }
  let p := active_set_change m sc O res wk1
  (p.1, iterative_solve_with_permut_fact S m sc O eps inner p.1 p.2)

/-- Exit signal of one pass of the correction-guess loop: the
`‖α·Δx‖∞ < 10⁻¹¹` break, the
`err_in ≤ eps_int · rhs_c` break (carrying the new error), or fall-through
to the next pass. -/
inductive CGStepExit
  | smallStep
  | convergedExit (err_in : ℚ)
  | nextIter (err_in : ℚ)
deriving DecidableEq, Repr

/-- Result of one pass of the correction-guess loop. -/
structure CGStepOut (σ : Type) where
  res : QPResults
  wk : QPWorkspace σ
  exit : CGStepExit

/-- One pass of the `correction_guess` loop body (solver.hpp): Newton step,
products `Hdx`, `Adx`, `Cdx`, line search when `n_in > 0` (step length from
the oracle), the small-step break, iterate and residual updates, the
freshly recomputed dual residual with its relative threshold
`rhs_c = max(‖g_scaled‖∞, ‖Hx‖∞, ‖Aᵀy‖∞, ‖Cᵀz‖∞) + 1`, and the
convergence break. -/
def correction_guess_step {σ : Type} (S : QPSettings) (m : QPData)
    (sc : ScaledData) (O : Oracle σ) (eps : ℚ) (iter : ℕ)
    (res : QPResults) (wk : QPWorkspace σ) : CGStepOut σ :=
  let p := newton_step S m sc O eps res wk
  let res1 := p.1
  let dwh := p.2.dw_aug.take m.dim
  let wk1 := { p.2 with
    Hdx := matVec sc.H_scaled dwh
    Adx := matVec sc.A_scaled dwh
    Cdx := matVec sc.C_scaled dwh }
  let wk2 := if 0 < m.n_in then { wk1 with alpha := O.correctionGuessAlpha res1 wk1 }
             else wk1
  if infty_norm (smul wk2.alpha (wk2.dw_aug.take m.dim)) < 1 / 10 ^ 11 then
    ⟨{ res1 with n_tot := res1.n_tot + iter + 1 }, wk2, .smallStep⟩
  else
    let x' := vadd res1.x (smul wk2.alpha (wk2.dw_aug.take m.dim))
    let pu := vadd wk2.primal_residual_in_scaled_up (smul wk2.alpha wk2.Cdx)
    let pl := vadd wk2.primal_residual_in_scaled_low (smul wk2.alpha wk2.Cdx)
    let pe := vadd wk2.primal_residual_eq_scaled (smul wk2.alpha wk2.Adx)
    let y' := smul res1.mu_eq pe
    let z' := smul res1.mu_in (vadd (positive_part pu) (negative_part pl))
    let d1 := matVec sc.H_scaled x'
    let rhs_c1 := max2 sc.correction_guess_rhs_g (infty_norm d1)
    let aty := matTVec m.dim sc.A_scaled y'
    let d2 := vadd d1 aty
    let rhs_c2 := max2 rhs_c1 (infty_norm aty)
    let ctz := matTVec m.dim sc.C_scaled z'
    let d3 := vadd d2 ctz
    let rhs_c3 := max2 rhs_c2 (infty_norm ctz)
    let d4 := vadd d3 (vadd sc.g_scaled (smul res1.rho (vsub x' wk2.x_prev)))
    let rhs_c := rhs_c3 + 1
    let err_in := infty_norm d4
    let res2 := { res1 with x := x', y := y', z := z' }
    let wk3 := { wk2 with
      primal_residual_in_scaled_up := pu
      primal_residual_in_scaled_low := pl
      primal_residual_eq_scaled := pe
      dual_residual_scaled := d4
      CTz := ctz }
    if err_in ≤ eps * rhs_c then
      ⟨{ res2 with n_tot := res2.n_tot + iter + 1 }, wk3, .convergedExit err_in⟩
    else
      ⟨res2, wk3, .nextIter err_in⟩

/-- How the correction-guess loop ended. -/
inductive CGReason
  | smallStep
  | converged
  | budget
deriving DecidableEq, Repr

/-- Result of `correction_guess`. -/
structure CGOut (σ : Type) where
  err_in : ℚ
  res : QPResults
  wk : QPWorkspace σ
  reason : CGReason

/-- The `for iter in 0..max_iter_in` loop of `correction_guess`; `k` counts
the remaining passes (`k = max_iter_in − iter`), so `k = 0` is the
`iter == max_iter_in` budget break, which adds `max_iter_in` to `n_tot`. -/
def correction_guess_loop {σ : Type} (S : QPSettings) (m : QPData)
    (sc : ScaledData) (O : Oracle σ) (eps : ℚ) :
    ℕ → ℕ → ℚ → QPResults → QPWorkspace σ → CGOut σ
  | 0, _, err_in, res, wk =>
    ⟨err_in, { res with n_tot := res.n_tot + S.max_iter_in }, wk, .budget⟩
  | k + 1, iter, err_in, res, wk =>
    let s := correction_guess_step S m sc O eps iter res wk
    match s.exit with
    | .smallStep => ⟨err_in, s.res, s.wk, .smallStep⟩
    | .convergedExit e => ⟨e, s.res, s.wk, .converged⟩
    | .nextIter e => correction_guess_loop S m sc O eps k (iter + 1) e s.res s.wk

/-- `qp::detail::correction_guess`: the inner Newton loop, entered with
`err_in = 10⁶`. -/
def correction_guess {σ : Type} (S : QPSettings) (m : QPData) (sc : ScaledData)
    (O : Oracle σ) (eps : ℚ) (res : QPResults) (wk : QPWorkspace σ) : CGOut σ :=
  correction_guess_loop S m sc O eps S.max_iter_in 0 (10 ^ 6) res wk

/-! ## BCL outer update and the outer loop (`bcl_update`, `qp_solve`). -/

/-- The pending `(μ_eq, μ_in)` values and their inverses
(`new_bcl_mu_{eq,in}` and `new_bcl_mu_{eq,in}_inv` locals of `qp_solve`). -/
structure PendingMu where
  mu_in : ℚ
  mu_eq : ℚ
  mu_in_inv : ℚ
  mu_eq_inv : ℚ
deriving DecidableEq, Repr

/-- Result of `bcl_update`. -/
structure BCLOut where
  bcl_eta_ext : ℚ
  bcl_eta_in : ℚ
  res : QPResults
  pending : PendingMu

/-- `qp::detail::bcl_update`: on a good step
(`primal_feasibility_lhs ≤ bcl_eta_ext`) tighten the tolerances and keep
everything else; on a bad step roll `y`, `z` back to the saved previous
iterates, grow the pending `μ` values toward their caps, and reset the
tolerances from the new `μ_in` inverse.  `pow` is `std::pow`, supplied by
the oracle. -/
def bcl_update {σ : Type} (S : QPSettings) (O : Oracle σ)
    (primal_feasibility_lhs bcl_eta_ext bcl_eta_in bcl_eta_ext_init eps_in_min : ℚ)
    (pending : PendingMu) (res : QPResults) (wk : QPWorkspace σ) : BCLOut :=
  if primal_feasibility_lhs ≤ bcl_eta_ext then
    ⟨bcl_eta_ext * O.powFn res.mu_in_inv S.beta_bcl,
     max2 (bcl_eta_in * res.mu_in_inv) eps_in_min, res, pending⟩
  else
    let nin := min (res.mu_in * S.mu_update_factor) S.mu_max_in
    let neq := min (res.mu_eq * S.mu_update_factor) S.mu_max_eq
    let nininv := max2 (res.mu_in_inv * S.mu_update_inv_factor) S.mu_max_in_inv
    let neqinv := max2 (res.mu_eq_inv * S.mu_update_inv_factor) S.mu_max_eq_inv
    ⟨bcl_eta_ext_init * O.powFn nininv S.alpha_bcl,
     max2 nininv eps_in_min,
     { res with y := wk.y_prev, z := wk.z_prev },
     ⟨nin, neq, nininv, neqinv⟩⟩

/-- The objective `(0.5·H·x + g)·x` written to `objValue` by `qp_solve`. -/
def objVal (m : QPData) (x : Vec) : ℚ :=
  dotV (vadd (smul (1 / 2) (matVec m.H x)) m.g) x

/-- Result of the cold-restart check plus effective `μ` update (the tail of
an outer iteration of `qp_solve`); `coldRestarted` records whether the
cold-restart branch was taken. -/
structure ColdOut (σ : Type) where
  res : QPResults
  wk : QPWorkspace σ
  coldRestarted : Bool

/-- Tail of the `qp_solve` outer-iteration body (solver.hpp, the
`COLD RESTART` comment onward): recompute the dual residual, snap the
pending `μ` values to the cold-reset constants when both new residuals fail
to improve relative to `max(primal_top, machine_eps)` and `μ_in ≥ 10⁵`,
count a `μ` change when the applied values differ, apply the rank-one
`mu_update`, and store the new `μ` values and inverses. -/
def cold_restart_and_mu_update {σ : Type} (S : QPSettings) (m : QPData)
    (sc : ScaledData) (O : Oracle σ) (primal_top primal_new : ℚ)
    (pending : PendingMu) (res : QPResults) (wk : QPWorkspace σ) : ColdOut σ :=
  let dr := global_dual_residual m sc res wk
  let cold := 1 ≤ primal_new / max2 primal_top O.machineEps ∧
      1 ≤ dr.lhs / max2 primal_top O.machineEps ∧ 100000 ≤ res.mu_in
  let p := if cold then
      (⟨S.cold_reset_mu_in, S.cold_reset_mu_eq,
        S.cold_reset_mu_in_inv, S.cold_reset_mu_eq_inv⟩ : PendingMu)
    else pending
  let res1 := if res.mu_in ≠ p.mu_in ∨ res.mu_eq ≠ p.mu_eq then
      { res with n_mu_change := res.n_mu_change + 1 }
    else res
  let wk1 := mu_update m O res1 dr.wk p.mu_eq_inv p.mu_in_inv
  ⟨{ res1 with
     mu_eq := p.mu_eq, mu_in := p.mu_in,
     mu_eq_inv := p.mu_eq_inv, mu_in_inv := p.mu_in_inv },
   wk1, decide cold⟩

/-- Result of one outer iteration of `qp_solve`: either the solved break
was taken (`solvedNow`), or the updated loop state is carried to the next
iteration.  `refactored` and `coldRestarted` record whether the
`refactorize` call and the cold-restart branch happened in this
iteration. -/
structure IterOut (σ : Type) where
  solvedNow : Bool
  bcl_eta_ext : ℚ
  bcl_eta_in : ℚ
  res : QPResults
  wk : QPWorkspace σ
  refactored : Bool
  coldRestarted : Bool

/-- The non-terminating tail of an outer iteration: `bcl_update` on the new
primal residual, then `cold_restart_and_mu_update`. -/
def finish_iteration {σ : Type} (S : QPSettings) (m : QPData) (sc : ScaledData)
    (O : Oracle σ)
    (bcl_eta_ext bcl_eta_in bcl_eta_ext_init eps_in_min p_top p_new : ℚ)
    (pending : PendingMu) (res : QPResults) (wk : QPWorkspace σ) : IterOut σ :=
  let b := bcl_update S O p_new bcl_eta_ext bcl_eta_in bcl_eta_ext_init
      eps_in_min pending res wk
  let c := cold_restart_and_mu_update S m sc O p_top p_new b.pending b.res wk
  ⟨false, b.bcl_eta_ext, b.bcl_eta_in, c.res, c.wk, false, c.coldRestarted⟩

/-- The residual-preparation block run before `correction_guess` when the
initial guess was tried but did not reach its tolerance (solver.hpp,
comment `contains now Hx* + rho(x*-x_prev) + g + ATy*` onward). -/
def prep_after_initial_guess {σ : Type} (m : QPData) (sc : ScaledData)
    (res : QPResults) (wk : QPWorkspace σ) : QPWorkspace σ :=
  let d1 := vadd wk.dual_residual_scaled (negV (matTVec m.dim sc.C_scaled res.z))
  let d2 := vadd d1 (smul res.mu_eq (matTVec m.dim sc.A_scaled wk.primal_residual_eq_scaled))
  let pe := vadd wk.primal_residual_eq_scaled (smul res.mu_eq_inv res.y)
  let pu := vadd wk.primal_residual_in_scaled_up (smul res.mu_in_inv res.z)
  let pl := vadd wk.primal_residual_in_scaled_low (smul res.mu_in_inv res.z)
  let apz := smul res.mu_in (vadd (positive_part pu) (negative_part pl))
  let d3 := vadd d2 (matTVec m.dim sc.C_scaled apz)
  { wk with
    dual_residual_scaled := d3
    primal_residual_eq_scaled := pe
    primal_residual_in_scaled_up := pu
    primal_residual_in_scaled_low := pl
    active_part_z := apz }

/-- The residual-preparation block run before `correction_guess` when the
initial guess was skipped (solver.hpp, branch
`!do_initial_guess_fact && n_in != 0`; the `scale_primal_residual` call is
the identity preconditioner's no-op). -/
def prep_without_initial_guess {σ : Type} (m : QPData) (sc : ScaledData)
    (res : QPResults) (wk : QPWorkspace σ) : QPWorkspace σ :=
  let pu1 := vadd wk.primal_residual_in_scaled_up (smul res.mu_in_inv wk.z_prev)
  let pu := vsub pu1 sc.u_scaled
  let pl := vsub pu1 sc.l_scaled
  let d1 := vadd wk.dual_residual_scaled
      (smul res.mu_eq (matTVec m.dim sc.A_scaled wk.primal_residual_eq_scaled))
  let pe := vadd wk.primal_residual_eq_scaled (smul res.mu_eq_inv res.y)
  let apz := vsub (smul res.mu_in (vadd (positive_part pu) (negative_part pl))) res.z
  let d2 := vadd d1 (matTVec m.dim sc.C_scaled apz)
  { wk with
    dual_residual_scaled := d2
    primal_residual_eq_scaled := pe
    primal_residual_in_scaled_up := pu
    primal_residual_in_scaled_low := pl
    active_part_z := apz }

/-- The relative part of the primal stopping threshold:
`max(max(‖Ax‖, ‖Cx‖), max(max(rhs_1_eq, rhs_1_in_u), rhs_1_in_l))`. -/
def primal_rel_max (sc : ScaledData) (rhs0_eq rhs0_in : ℚ) : ℚ :=
  max2 (max2 rhs0_eq rhs0_in)
       (max2 (max2 sc.primal_feasibility_rhs_1_eq sc.primal_feasibility_rhs_1_in_u)
             sc.primal_feasibility_rhs_1_in_l)

/-- The relative part of the dual stopping threshold:
`max(max(‖Cᵀz‖, ‖Hx‖), max(‖Aᵀy‖, rhs_2))`. -/
def dual_rel_max (sc : ScaledData) (rhs0 rhs1 rhs3 : ℚ) : ℚ :=
  max2 (max2 rhs3 rhs0) (max2 rhs1 sc.dual_feasibility_rhs_2)

/-- The closing part of an outer iteration after the inner step: re-evaluate
the primal residual, and when it passes also the dual residual; take the
second solved break when both pass, otherwise run the
BCL/cold-restart/μ-update tail on the new primal residual norm. -/
def qp_second_check {σ : Type} (S : QPSettings) (m : QPData)
    (sc : ScaledData) (O : Oracle σ)
    (bcl_eta_ext bcl_eta_in bcl_eta_ext_init eps_in_min p_top : ℚ)
    (pending : PendingMu) (res6 : QPResults) (wk6 : QPWorkspace σ) : IterOut σ :=
  let pr2 := global_primal_residual m sc res6 wk6
  let rhs_pri2 := S.eps_abs + S.eps_rel * primal_rel_max sc pr2.rhs0_eq pr2.rhs0_in
  if pr2.lhs ≤ rhs_pri2 then
    let dr2 := global_dual_residual m sc res6 pr2.wk
    let rhs_dua2 := S.eps_abs + S.eps_rel * dual_rel_max sc dr2.rhs0 dr2.rhs1 dr2.rhs3
    if dr2.lhs ≤ rhs_dua2 then
      ⟨true, bcl_eta_ext, bcl_eta_in,
       { res6 with objValue := objVal m res6.x }, dr2.wk, false, false⟩
    else
      finish_iteration S m sc O bcl_eta_ext bcl_eta_in bcl_eta_ext_init eps_in_min
        p_top pr2.lhs pending res6 dr2.wk
  else
    finish_iteration S m sc O bcl_eta_ext bcl_eta_in bcl_eta_ext_init eps_in_min
      p_top pr2.lhs pending res6 pr2.wk

/-- The part of the outer-iteration body after the first solved break: the
choice between initial guess and correction guess with their residual
preparations, then `qp_second_check`.  `p_top` is the primal residual
norm computed at the top of the iteration (used by the initial-guess test
and as the cold-restart reference). -/
def qp_iteration_rest {σ : Type} (S : QPSettings) (m : QPData)
    (sc : ScaledData) (O : Oracle σ)
    (bcl_eta_ext bcl_eta_in bcl_eta_ext_init eps_in_min p_top : ℚ)
    (pending : PendingMu) (res1 : QPResults) (wk2 : QPWorkspace σ) : IterOut σ :=
  let do_ig := p_top < S.eps_IG ∨ m.n_in = 0
  let t1 :=
    if do_ig then
      let r := initial_guess S m sc O res1 wk2 wk2.z_prev bcl_eta_in
      (r.err, { r.res with n_tot := r.res.n_tot + 1 }, r.wk)
    else ((0 : ℚ), res1, wk2)
  let err_in := t1.1
  let res3 := t1.2.1
  let wk3 := t1.2.2
  let do_cg := (¬do_ig ∧ m.n_in ≠ 0) ∨ (do_ig ∧ bcl_eta_in ≤ err_in ∧ m.n_in ≠ 0)
  let wk4 := if do_ig ∧ bcl_eta_in ≤ err_in ∧ m.n_in ≠ 0 then
      prep_after_initial_guess m sc res3 wk3
    else wk3
  let wk5 := if ¬do_ig ∧ m.n_in ≠ 0 then prep_without_initial_guess m sc res3 wk4
    else wk4
  let t2 :=
    if do_cg then
      let c := correction_guess S m sc O bcl_eta_in res3 wk5
      (c.err_in, c.res, c.wk)
    else (err_in, res3, wk5)
  let res6 := t2.2.1
  let wk6 := t2.2.2
  qp_second_check S m sc O bcl_eta_ext bcl_eta_in bcl_eta_ext_init eps_in_min
    p_top pending res6 wk6

/-- One iteration of the outer `for` loop of `qp_solve` (solver.hpp, the
body after the `iter == max_iter` break): residual evaluation, feasibility
checks, the conditional `refactorize`, the solved break, and
`qp_iteration_rest` otherwise. -/
def qpSolveIter {σ : Type} (S : QPSettings) (m : QPData) (sc : ScaledData)
    (O : Oracle σ)
    (bcl_eta_ext bcl_eta_in bcl_eta_ext_init eps_in_min : ℚ)
    (res : QPResults) (wk : QPWorkspace σ) : IterOut σ :=
  let pr := global_primal_residual m sc res wk
  let dr := global_dual_residual m sc res pr.wk
  let pending : PendingMu := ⟨res.mu_in, res.mu_eq, res.mu_in_inv, res.mu_eq_inv⟩
  let rhs_pri := S.eps_abs +
      (if S.eps_rel ≠ 0 then S.eps_rel * primal_rel_max sc pr.rhs0_eq pr.rhs0_in else 0)
  let is_pf := pr.lhs ≤ rhs_pri
  let rhs_dua := S.eps_abs +
      (if S.eps_rel ≠ 0 then S.eps_rel * dual_rel_max sc dr.rhs0 dr.rhs1 dr.rhs3 else 0)
  let is_df := dr.lhs ≤ rhs_dua
  let refactorNow := is_pf ∧ S.refactor_dual_feasibility_threshold ≤ dr.lhs ∧
      res.rho ≠ S.refactor_rho_threshold
  let res1 := if refactorNow then { res with rho := S.refactor_rho_threshold } else res
  let wk1 := if refactorNow then refactorize m sc O res dr.wk S.refactor_rho_threshold
             else dr.wk
  let out :=
    if is_pf ∧ is_df then
      ⟨true, bcl_eta_ext, bcl_eta_in,
       { res1 with objValue := objVal m res1.x }, wk1, false, false⟩
    else
      qp_iteration_rest S m sc O bcl_eta_ext bcl_eta_in bcl_eta_ext_init
        eps_in_min pr.lhs pending res1
        { wk1 with x_prev := res1.x, y_prev := res1.y, z_prev := res1.z }
  { out with refactored := decide refactorNow }

/-- The outer `for (iter = 0; iter <= max_iter; ++iter)` loop of
`qp_solve`: `n_ext` is incremented on loop entry, the `iter == max_iter`
break exits with the budget exhausted, and otherwise one iteration runs and
either breaks solved or continues.  `k` counts the remaining iterations
(`k = max_iter − iter`). -/
def qp_solve_loop {σ : Type} (S : QPSettings) (m : QPData) (sc : ScaledData)
    (O : Oracle σ) (bcl_eta_ext_init eps_in_min : ℚ) :
    ℕ → ℚ → ℚ → QPResults → QPWorkspace σ →
    QPResults × QPWorkspace σ × SolveOutcome
  | 0, _, _, res, wk => ({ res with n_ext := res.n_ext + 1 }, wk, .maxIterOutcome)
  | k + 1, bcl_eta_ext, bcl_eta_in, res, wk =>
    let res0 := { res with n_ext := res.n_ext + 1 }
    let it := qpSolveIter S m sc O bcl_eta_ext bcl_eta_in bcl_eta_ext_init
        eps_in_min res0 wk
    if it.solvedNow then (it.res, it.wk, .solvedOutcome)
    else qp_solve_loop S m sc O bcl_eta_ext_init eps_in_min k
        it.bcl_eta_ext it.bcl_eta_in it.res it.wk

/-- `qp::detail::qp_solve`: initializes the BCL tolerances
(`bcl_eta_ext = pow(0.1, alpha_bcl)`, `bcl_eta_in = 1`,
`eps_in_min = min(eps_abs, 10⁻⁹)`), runs the outer loop, and finally writes
the objective value.  Note the source never writes any `status` field. -/
def qp_solve {σ : Type} (S : QPSettings) (m : QPData) (sc : ScaledData)
    (O : Oracle σ) (res : QPResults) (wk : QPWorkspace σ) :
    QPResults × QPWorkspace σ × SolveOutcome :=
  let bcl_eta_ext_init := O.powFn (1 / 10) S.alpha_bcl
  let eps_in_min := min S.eps_abs (1 / 10 ^ 9)
  let r := qp_solve_loop S m sc O bcl_eta_ext_init eps_in_min S.max_iter
      bcl_eta_ext_init 1 res wk
  ({ r.1 with objValue := objVal m r.1.x }, r.2.1, r.2.2)

/-! ## Setup and warm start (`src/include/qp/dense/helpers.hpp`).

The `Results::cleanup`, `Results::cold_start`, `Results::cleanup_statistics`
and `Workspace::cleanup` member functions live in `qp/results.hpp` and
`qp/dense/workspace.hpp`, which are not among the sources; they are
modelled from the spec's initial-guess policy table (workspace cleared /
kept, results cleared / cleared except `(x,y,z)` / statistics-only
cleared).  The Ruiz preconditioner is likewise not among the sources and
enters as a record of scaling functions with the capability set of
spec section 4.2 (the in-source `IdentityPrecond` exhibits the same
signatures). -/

/-- Modelled from the spec: the preconditioner capability set consumed by
`setup` — scale the QP buffers in place (with an execute/reuse flag) and
scale the primal / dual iterates in place. -/
structure PrecondOps where
  scaleQp : Bool → ScaledData → ScaledData
  scalePrimal : Vec → Vec
  scaleDualEq : Vec → Vec
  scaleDualIn : Vec → Vec

/-- Modelled from the spec: `Results::cleanup_statistics` — clear the
solver statistics (counters, objective, status) and keep the iterates and
proximal parameters. -/
def results_cleanup_statistics (res : QPResults) : QPResults :=
  { res with
    n_ext := 0, n_tot := 0, n_mu_change := 0, objValue := 0,
    status := .iterating }

/-- Modelled from the spec: `Results::cold_start` — clear everything except
the iterates `(x, y, z)` (statistics and the active-set counter). -/
def results_cold_start (res : QPResults) : QPResults :=
  { results_cleanup_statistics res with n_c := 0 }

/-- Modelled from the spec: `Results::cleanup` — clear the results,
including the iterates. -/
def results_cleanup (res : QPResults) : QPResults :=
  { results_cold_start res with
    x := zeroVec res.x.length
    y := zeroVec res.y.length
    z := zeroVec res.z.length }

/-- Modelled from the spec: `Workspace::cleanup` — reset all scratch
buffers, the bijection map, and the previous iterates (the abstract
factorization state is overwritten by the next factorization and is kept
as-is). -/
def workspace_cleanup {σ : Type} (m : QPData) (wk : QPWorkspace σ) :
    QPWorkspace σ :=
  let L := m.dim + m.n_eq + m.n_in
  { wk with
    x_prev := zeroVec m.dim
    y_prev := zeroVec m.n_eq
    z_prev := zeroVec m.n_in
    kkt := List.replicate (m.dim + m.n_eq) (zeroVec (m.dim + m.n_eq))
    current_bijection_map := List.range m.n_in
    rhs := zeroVec L
    dw_aug := zeroVec L
    err := zeroVec L
    primal_residual_eq_scaled := zeroVec m.n_eq
    primal_residual_in_scaled_up := zeroVec m.n_in
    primal_residual_in_scaled_low := zeroVec m.n_in
    primal_residual_in_scaled_up_plus_alphaCdx := zeroVec m.n_in
    primal_residual_in_scaled_low_plus_alphaCdx := zeroVec m.n_in
    dual_residual_scaled := zeroVec m.dim
    CTz := zeroVec m.dim
    active_part_z := zeroVec m.n_in
    Hdx := zeroVec m.dim
    Adx := zeroVec m.n_eq
    Cdx := zeroVec m.n_in
    active_set_up := List.replicate m.n_in false
    active_set_low := List.replicate m.n_in false
    active_inequalities := List.replicate m.n_in false
    alpha := 0 }

/-- `proxsuite::qp::dense::setup` (helpers.hpp): clear workspace and
results according to the initial-guess policy, copy the problem into the
model and the scaled buffers, set the feasibility norm constants, run the
equilibration per the preconditioner directive (EXECUTE runs it, IDENTITY
and KEEP reuse the stored scaling), set `correction_guess_rhs_g`, and for
the two with-previous-result policies rescale the preserved iterates in
place. -/
def setup {σ : Type} (Hm : Mat) (g : Vec) (Am : Mat) (b : Vec) (Cm : Mat)
    (u l : Vec) (S : QPSettings) (m : QPData) (wk : QPWorkspace σ)
    (res : QPResults) (ruiz : PrecondOps) (pstatus : PreconditionerStatus) :
    QPData × ScaledData × QPWorkspace σ × QPResults :=
  let wk1 := match S.initial_guess with
    | .EQUALITY_CONSTRAINED_INITIAL_GUESS => workspace_cleanup m wk
    | .COLD_START_WITH_PREVIOUS_RESULT => workspace_cleanup m wk
    | .NO_INITIAL_GUESS => workspace_cleanup m wk
    | .WARM_START => workspace_cleanup m wk
    | .WARM_START_WITH_PREVIOUS_RESULT => wk
  let res1 := match S.initial_guess with
    | .EQUALITY_CONSTRAINED_INITIAL_GUESS => results_cleanup res
    | .COLD_START_WITH_PREVIOUS_RESULT => results_cold_start res
    | .NO_INITIAL_GUESS => results_cleanup res
    | .WARM_START => results_cleanup res
    | .WARM_START_WITH_PREVIOUS_RESULT => results_cleanup_statistics res
  let m1 : QPData := { m with H := Hm, g := g, A := Am, b := b, C := Cm, u := u, l := l }
  let sc1 : ScaledData :=
    { H_scaled := m1.H, g_scaled := m1.g, A_scaled := m1.A, b_scaled := m1.b,
      C_scaled := m1.C, u_scaled := m1.u, l_scaled := m1.l,
      primal_feasibility_rhs_1_eq := infty_norm m1.b
      primal_feasibility_rhs_1_in_u := infty_norm m1.u
      primal_feasibility_rhs_1_in_l := infty_norm m1.l
      dual_feasibility_rhs_2 := infty_norm m1.g
      correction_guess_rhs_g := 0 }
  let execute := match pstatus with
    | .EXECUTE => true
    | .IDENTITY => false
    | .KEEP => false
  let sc2 := ruiz.scaleQp execute sc1
  let sc3 := { sc2 with correction_guess_rhs_g := infty_norm sc2.g_scaled }
  let res2 := match S.initial_guess with
    | .COLD_START_WITH_PREVIOUS_RESULT =>
      { res1 with
        x := ruiz.scalePrimal res1.x
        y := ruiz.scaleDualEq res1.y
        z := ruiz.scaleDualIn res1.z }
    | .WARM_START_WITH_PREVIOUS_RESULT =>
      { res1 with
        x := ruiz.scalePrimal res1.x
        y := ruiz.scaleDualEq res1.y
        z := ruiz.scaleDualIn res1.z }
    | _ => res1
  (m1, sc3, wk1, res2)

/-- `proxsuite::qp::dense::warm_start` (helpers.hpp): assign the supplied
iterates only when every vector required by the problem's dimensions
(`n_eq = results.y.rows()`, `n_in = results.z.rows()`) is present, and in
every case set the initial-guess policy to `WARM_START`. -/
def warm_start (x_wm y_wm z_wm : Option Vec) (res : QPResults)
    (S : QPSettings) : QPResults × QPSettings :=
  let n_eq := res.y.length
  let n_in := res.z.length
  let res1 :=
    if n_eq ≠ 0 then
      if n_in ≠ 0 then
        match x_wm, y_wm, z_wm with
        | some x, some y, some z => { res with x := x, y := y, z := z }
        | _, _, _ => res
      else
        match x_wm, y_wm with
        | some x, some y => { res with x := x, y := y }
        | _, _ => res
    else if n_in ≠ 0 then
      match x_wm, z_wm with
      | some x, some z => { res with x := x, z := z }
      | _, _ => res
    else
      match x_wm with
      | some x => { res with x := x }
      | none => res
  (res1, { S with initial_guess := .WARM_START })

/-! ## Concrete instances

Small concrete problems, workspaces and oracles used to evaluate the
embedding on closed inputs. -/

/-- Scaled data agreeing with the model (identity equilibration), with the
norm constants as `setup` establishes them. -/
def scOf (m : QPData) : ScaledData :=
  { H_scaled := m.H, g_scaled := m.g, A_scaled := m.A, b_scaled := m.b,
    C_scaled := m.C, u_scaled := m.u, l_scaled := m.l,
    primal_feasibility_rhs_1_eq := infty_norm m.b
    primal_feasibility_rhs_1_in_u := infty_norm m.u
    primal_feasibility_rhs_1_in_l := infty_norm m.l
    dual_feasibility_rhs_2 := infty_norm m.g
    correction_guess_rhs_g := infty_norm m.g }

/-- A zeroed workspace of the right dimensions over the trivial
factorization state, with `alpha = 1`. -/
def wkZero (m : QPData) : QPWorkspace Unit :=
  let L := m.dim + m.n_eq + m.n_in
  { x_prev := zeroVec m.dim, y_prev := zeroVec m.n_eq, z_prev := zeroVec m.n_in,
    kkt := List.replicate (m.dim + m.n_eq) (zeroVec (m.dim + m.n_eq)),
    current_bijection_map := List.range m.n_in, ldl := (),
    rhs := zeroVec L, dw_aug := zeroVec L, err := zeroVec L,
    primal_residual_eq_scaled := zeroVec m.n_eq,
    primal_residual_in_scaled_up := zeroVec m.n_in,
    primal_residual_in_scaled_low := zeroVec m.n_in,
    primal_residual_in_scaled_up_plus_alphaCdx := zeroVec m.n_in,
    primal_residual_in_scaled_low_plus_alphaCdx := zeroVec m.n_in,
    dual_residual_scaled := zeroVec m.dim, CTz := zeroVec m.dim,
    active_part_z := zeroVec m.n_in, Hdx := zeroVec m.dim,
    Adx := zeroVec m.n_eq, Cdx := zeroVec m.n_in,
    active_set_up := List.replicate m.n_in false,
    active_set_low := List.replicate m.n_in false,
    active_inequalities := List.replicate m.n_in false, alpha := 1 }

/-- A zeroed results record with unit proximal parameters. -/
def resZero (m : QPData) : QPResults :=
  { x := zeroVec m.dim, y := zeroVec m.n_eq, z := zeroVec m.n_in,
    rho := 0, mu_eq := 1, mu_in := 1, mu_eq_inv := 1, mu_in_inv := 1,
    n_c := 0, n_ext := 0, n_tot := 0, n_mu_change := 0, objValue := 0,
    status := .iterating }

/-- A concrete settings record. -/
def settingsBase : QPSettings :=
  { eps_abs := 1, eps_rel := 0, eps_IG := 1, eps_refact := 1,
    alpha_bcl := 1, beta_bcl := 1,
    mu_max_eq := 10 ^ 9, mu_max_in := 10 ^ 9,
    mu_max_eq_inv := 1 / 10 ^ 9, mu_max_in_inv := 1 / 10 ^ 9,
    mu_update_factor := 10, mu_update_inv_factor := 1 / 10,
    cold_reset_mu_eq := 11, cold_reset_mu_in := 12,
    cold_reset_mu_eq_inv := 1 / 11, cold_reset_mu_in_inv := 1 / 12,
    refactor_rho_threshold := 3, refactor_dual_feasibility_threshold := 100,
    max_iter := 1, max_iter_in := 5, nb_iterative_refinement := 3,
    initial_guess := .NO_INITIAL_GUESS }

/-- A concrete oracle over the trivial factorization state: the linear
solve returns its input, both line searches return step 1, `pow x b = x`,
machine epsilon `10⁻³`. -/
def oracleBase : Oracle Unit :=
  { ldlFactorize := fun _ _ => (), ldlSolve := fun _ v => v,
    ldlInsertAt := fun _ _ _ => (), ldlRemoveAt := fun _ _ => (),
    ldlRankOneUpdate := fun _ _ _ => (),
    initialGuessAlpha := fun _ _ => 1, correctionGuessAlpha := fun _ _ => 1,
    powFn := fun x _ => x, machineEps := 1 / 1000 }

/-- The base oracle with a linear solve that always returns the zero
vector of dimension one. -/
def oracleSolveZero : Oracle Unit := { oracleBase with ldlSolve := fun _ _ => [0] }

/-- The base oracle with a linear solve that always returns `[1]`. -/
def oracleSolveOne : Oracle Unit := { oracleBase with ldlSolve := fun _ _ => [1] }

/-- The preconditioner record of the in-source `IdentityPrecond`: every
operation is a no-op. -/
def idPrecond : PrecondOps :=
  { scaleQp := fun _ s => s, scalePrimal := id, scaleDualEq := id,
    scaleDualIn := id }

/-- A trivial one-dimensional unconstrained problem, solved at `x = 0`. -/
def exSolvedData : QPData :=
  { dim := 1, n_eq := 0, n_in := 0, H := [[1]], g := [0],
    A := [], b := [], C := [], u := [], l := [] }

/-- One-dimensional unconstrained problem with `H = 0`, `g = [10]` (used to
exercise the correction-guess stopping test). -/
def exCGData : QPData :=
  { dim := 1, n_eq := 0, n_in := 0, H := [[0]], g := [10],
    A := [], b := [], C := [], u := [], l := [] }

/-- One-dimensional unconstrained problem with `H = 0`, `g = [2]` (used to
exercise the refactorization trigger). -/
def exRefacData : QPData :=
  { dim := 1, n_eq := 0, n_in := 0, H := [[0]], g := [2],
    A := [], b := [], C := [], u := [], l := [] }

/-- One-dimensional unconstrained problem with `H = 0`, `g = [5]` (used to
exercise the cold-restart condition). -/
def exColdData : QPData :=
  { dim := 1, n_eq := 0, n_in := 0, H := [[0]], g := [5],
    A := [], b := [], C := [], u := [], l := [] }

/-- One-dimensional problem with zero matrices (used to drive the
refinement loop explicitly). -/
def exRefineData : QPData :=
  { dim := 1, n_eq := 0, n_in := 0, H := [[0]], g := [0],
    A := [], b := [], C := [], u := [], l := [] }

/-- One equality and one inequality multiplier (used for `warm_start`). -/
def exWarmData : QPData :=
  { dim := 1, n_eq := 1, n_in := 1, H := [[1]], g := [0],
    A := [[1]], b := [0], C := [[1]], u := [1], l := [0] }

/-- The concrete solved run used to witness termination accuracy: one
outer iteration on `exSolvedData`, exiting solved. -/
def exSolvedRun : QPResults × QPWorkspace Unit × SolveOutcome :=
  qp_solve_loop settingsBase exSolvedData (scOf exSolvedData) oracleBase
    1 (1 / 10 ^ 9) 1 1 1 (resZero exSolvedData) (wkZero exSolvedData)

/-- Results record with `μ_in = 2` (good-step instance). -/
def exC5res : QPResults :=
  { resZero exSolvedData with mu_in := 2, mu_in_inv := 1 / 2 }

/-- Workspace with distinguished saved dual iterates (bad-step instance). -/
def exC10wk : QPWorkspace Unit :=
  { wkZero exWarmData with y_prev := [7], z_prev := [8] }

/-- Results with `μ_in = 10⁵` (cold-restart instance). -/
def exC7res : QPResults :=
  { resZero exColdData with mu_in := 100000 }

/-- Results record with `ρ = −1` (drives a strictly increasing refinement
residual with the identity solve oracle). -/
def exC4res : QPResults := { resZero exRefineData with rho := -1 }

/-- The iterate and workspace driving the correction-guess counterexample
(`x = 1`, zero dual residual cache, step length 1 preserved from the
workspace since `n_in = 0`). -/
def exC3res : QPResults := { resZero exCGData with x := [1] }

/-- Workspace for the correction-guess counterexample. -/
def exC3wk : QPWorkspace Unit := { wkZero exCGData with x_prev := [1] }

/-- The state driving the refactorization counterexample: `ρ = 5`, primal
residual zero (feasible), dual residual `2` (infeasible at `ε_abs = 1` but
below the refactorization threshold `100`). -/
def exC6res : QPResults := { resZero exRefacData with rho := 5 }

/-- The pair `(status, n_ext)` of a results record: no function of
solver.hpp writes either field except the `n_ext` increment at the top of
the outer loop, so this projection is invariant under every inner
operation. -/
def resCore (r : QPResults) : QPStatus × ℕ := (r.status, r.n_ext)

/-! ## Theorems -/

/-- C5: for every BCL update taking the good-step branch
(`primal_feasibility_lhs ≤ bcl_eta_ext`) with `μ_in > 1`, the updated
`bcl_eta_ext` is strictly smaller than before and the results record —
in particular `μ_eq`, `μ_in`, `ρ` — and the pending `μ` values are kept
unchanged.  (`pow` is `std::pow`, external to the sources and supplied by
the oracle; `hpow` states the fact `pow(1/μ_in, β_BCL) < 1` that holds for
the real power with `μ_in > 1` and `β_BCL > 0`, and `heta` the positivity
of the tolerance maintained by the solver.) -/
theorem C5_bcl_good_step {σ : Type} (S : QPSettings) (O : Oracle σ)
    (lhs ee ei eei epsmin : ℚ) (pending : PendingMu) (res : QPResults)
    (wk : QPWorkspace σ)
    (hgood : lhs ≤ ee) (hmu : 1 < res.mu_in) (heta : 0 < ee)
    (hpow : O.powFn res.mu_in_inv S.beta_bcl < 1) :
    (bcl_update S O lhs ee ei eei epsmin pending res wk).bcl_eta_ext < ee ∧
    (bcl_update S O lhs ee ei eei epsmin pending res wk).res = res ∧
    (bcl_update S O lhs ee ei eei epsmin pending res wk).pending = pending := by
  simp only [bcl_update, if_pos hgood]
  exact ⟨mul_lt_of_lt_one_right heta hpow, by trivial, by trivial⟩

/-- Witness for C5 at a concrete good step with `μ_in = 2`. -/
theorem C5_witness :
    (bcl_update settingsBase oracleBase 0 1 1 1 (1 / 10 ^ 9)
        ⟨1, 1, 1, 1⟩ exC5res (wkZero exSolvedData)).bcl_eta_ext < 1 ∧
    (bcl_update settingsBase oracleBase 0 1 1 1 (1 / 10 ^ 9)
        ⟨1, 1, 1, 1⟩ exC5res (wkZero exSolvedData)).res = exC5res ∧
    (bcl_update settingsBase oracleBase 0 1 1 1 (1 / 10 ^ 9)
        ⟨1, 1, 1, 1⟩ exC5res (wkZero exSolvedData)).pending = ⟨1, 1, 1, 1⟩ :=
  C5_bcl_good_step settingsBase oracleBase 0 1 1 1 (1 / 10 ^ 9)
    ⟨1, 1, 1, 1⟩ exC5res (wkZero exSolvedData)
    (of_decide_eq_true (by with_unfolding_all rfl))
    (of_decide_eq_true (by with_unfolding_all rfl))
    (of_decide_eq_true (by with_unfolding_all rfl))
    (of_decide_eq_true (by with_unfolding_all rfl))

/-- C10: on every BCL update taking the bad-step branch, the dual iterates
`y` and `z` are rolled back to the saved `y_prev`, `z_prev`, while the
primal iterate `x` keeps its value. -/
theorem C10_bcl_bad_step_rollback {σ : Type} (S : QPSettings) (O : Oracle σ)
    (lhs ee ei eei epsmin : ℚ) (pending : PendingMu) (res : QPResults)
    (wk : QPWorkspace σ) (hbad : ¬ lhs ≤ ee) :
    (bcl_update S O lhs ee ei eei epsmin pending res wk).res.y = wk.y_prev ∧
    (bcl_update S O lhs ee ei eei epsmin pending res wk).res.z = wk.z_prev ∧
    (bcl_update S O lhs ee ei eei epsmin pending res wk).res.x = res.x := by
  simp only [bcl_update, if_neg hbad]
  exact ⟨by trivial, by trivial, by trivial⟩

/-- Witness for C10 at a concrete bad step. -/
theorem C10_witness :
    (bcl_update settingsBase oracleBase 2 1 1 1 (1 / 10 ^ 9)
        ⟨1, 1, 1, 1⟩ (resZero exWarmData) exC10wk).res.y = exC10wk.y_prev ∧
    (bcl_update settingsBase oracleBase 2 1 1 1 (1 / 10 ^ 9)
        ⟨1, 1, 1, 1⟩ (resZero exWarmData) exC10wk).res.z = exC10wk.z_prev ∧
    (bcl_update settingsBase oracleBase 2 1 1 1 (1 / 10 ^ 9)
        ⟨1, 1, 1, 1⟩ (resZero exWarmData) exC10wk).res.x = (resZero exWarmData).x :=
  C10_bcl_bad_step_rollback settingsBase oracleBase 2 1 1 1 (1 / 10 ^ 9)
    ⟨1, 1, 1, 1⟩ (resZero exWarmData) exC10wk
    (of_decide_eq_true (by with_unfolding_all rfl))

/-- C9: a `warm_start` call on a problem with `n_eq > 0` and `n_in > 0` in
which at least one of the optional vectors is absent modifies none of
`x`, `y`, `z` — the supplied vectors are discarded — while
`settings.initial_guess` is still set to `WARM_START`. -/
theorem C9_warm_start_absent (x_wm y_wm z_wm : Option Vec) (res : QPResults)
    (S : QPSettings) (hne : res.y.length ≠ 0) (hni : res.z.length ≠ 0)
    (habs : x_wm = none ∨ y_wm = none ∨ z_wm = none) :
    (warm_start x_wm y_wm z_wm res S).1.x = res.x ∧
    (warm_start x_wm y_wm z_wm res S).1.y = res.y ∧
    (warm_start x_wm y_wm z_wm res S).1.z = res.z ∧
    (warm_start x_wm y_wm z_wm res S).2.initial_guess =
      InitialGuessStatus.WARM_START := by
  simp only [warm_start, if_pos hne, if_pos hni]
  rcases x_wm with _ | x <;> rcases y_wm with _ | y <;> rcases z_wm with _ | z <;>
    simp_all

/-- Witness for C9: `y` absent, `x` and `z` supplied and discarded. -/
theorem C9_witness :
    (warm_start (some [5]) none (some [6]) (resZero exWarmData)
        settingsBase).1.x = (resZero exWarmData).x ∧
    (warm_start (some [5]) none (some [6]) (resZero exWarmData)
        settingsBase).1.y = (resZero exWarmData).y ∧
    (warm_start (some [5]) none (some [6]) (resZero exWarmData)
        settingsBase).1.z = (resZero exWarmData).z ∧
    (warm_start (some [5]) none (some [6]) (resZero exWarmData)
        settingsBase).2.initial_guess = InitialGuessStatus.WARM_START :=
  C9_warm_start_absent (some [5]) none (some [6]) (resZero exWarmData)
    settingsBase (by decide) (by decide) (Or.inr (Or.inl rfl))

/-- C7: in the post-BCL tail of every outer iteration, the pending
`(μ_eq, μ_in)` and their inverses are snapped to the cold-reset constants
(and applied to the results) exactly when both the new primal residual and
the freshly recomputed dual residual fail to improve relative to the
previous primal residual (ratio ≥ 1) and `μ_in ≥ 10⁵`.  The hypothesis
`hm` places machine epsilon below the previous primal residual, so the
source's guard `max(primal_top, machine_eps)` is the previous primal
residual itself. -/
theorem C7_cold_restart {σ : Type} (S : QPSettings) (m : QPData)
    (sc : ScaledData) (O : Oracle σ) (p_top p_new : ℚ) (pending : PendingMu)
    (res : QPResults) (wk : QPWorkspace σ) (hm : O.machineEps ≤ p_top) :
    ((cold_restart_and_mu_update S m sc O p_top p_new pending res wk).coldRestarted = true ↔
      (1 ≤ p_new / p_top ∧ 1 ≤ dual_lhs_of m sc res / p_top ∧
        100000 ≤ res.mu_in)) ∧
    ((cold_restart_and_mu_update S m sc O p_top p_new pending res wk).coldRestarted = true →
      (cold_restart_and_mu_update S m sc O p_top p_new pending res wk).res.mu_eq =
          S.cold_reset_mu_eq ∧
      (cold_restart_and_mu_update S m sc O p_top p_new pending res wk).res.mu_in =
          S.cold_reset_mu_in ∧
      (cold_restart_and_mu_update S m sc O p_top p_new pending res wk).res.mu_eq_inv =
          S.cold_reset_mu_eq_inv ∧
      (cold_restart_and_mu_update S m sc O p_top p_new pending res wk).res.mu_in_inv =
          S.cold_reset_mu_in_inv) := by
  have hmax : max2 p_top O.machineEps = p_top := max_eq_left hm
  by_cases hc : (1 ≤ p_new / p_top ∧ 1 ≤ dual_lhs_of m sc res / p_top ∧
      100000 ≤ res.mu_in)
  · simp [cold_restart_and_mu_update, global_dual_residual, hmax, hc]
  · simp [cold_restart_and_mu_update, global_dual_residual, hmax, hc]

/-- Witness for C7 on a concrete state with `μ_in = 10⁵` and both residual
ratios at least 1. -/
theorem C7_witness :
    ((cold_restart_and_mu_update settingsBase exColdData (scOf exColdData)
        oracleBase 1 2 ⟨1, 1, 1, 1⟩ exC7res (wkZero exColdData)).coldRestarted = true ↔
      (1 ≤ (2 : ℚ) / 1 ∧
        1 ≤ dual_lhs_of exColdData (scOf exColdData) exC7res / 1 ∧
        100000 ≤ exC7res.mu_in)) ∧
    ((cold_restart_and_mu_update settingsBase exColdData (scOf exColdData)
        oracleBase 1 2 ⟨1, 1, 1, 1⟩ exC7res (wkZero exColdData)).coldRestarted = true →
      (cold_restart_and_mu_update settingsBase exColdData (scOf exColdData)
          oracleBase 1 2 ⟨1, 1, 1, 1⟩ exC7res (wkZero exColdData)).res.mu_eq =
        settingsBase.cold_reset_mu_eq ∧
      (cold_restart_and_mu_update settingsBase exColdData (scOf exColdData)
          oracleBase 1 2 ⟨1, 1, 1, 1⟩ exC7res (wkZero exColdData)).res.mu_in =
        settingsBase.cold_reset_mu_in ∧
      (cold_restart_and_mu_update settingsBase exColdData (scOf exColdData)
          oracleBase 1 2 ⟨1, 1, 1, 1⟩ exC7res (wkZero exColdData)).res.mu_eq_inv =
        settingsBase.cold_reset_mu_eq_inv ∧
      (cold_restart_and_mu_update settingsBase exColdData (scOf exColdData)
          oracleBase 1 2 ⟨1, 1, 1, 1⟩ exC7res (wkZero exColdData)).res.mu_in_inv =
        settingsBase.cold_reset_mu_in_inv) :=
  C7_cold_restart settingsBase exColdData (scOf exColdData) oracleBase 1 2
    ⟨1, 1, 1, 1⟩ exC7res (wkZero exColdData)
    (of_decide_eq_true (by with_unfolding_all rfl))

/-- C8: a `setup` call under the `WARM_START_WITH_PREVIOUS_RESULT` policy
keeps the workspace entirely (no cleanup is applied and `setup` writes no
workspace scratch), clears only the results statistics (counters and
objective reset, proximal parameters kept), and rescales the preserved
iterates `x`, `y`, `z` in place through the preconditioner. -/
theorem C8_setup_warm_previous {σ : Type} (Hm : Mat) (g : Vec) (Am : Mat)
    (b : Vec) (Cm : Mat) (u l : Vec) (S : QPSettings) (m : QPData)
    (wk : QPWorkspace σ) (res : QPResults) (ruiz : PrecondOps)
    (pstatus : PreconditionerStatus)
    (hpol : S.initial_guess = InitialGuessStatus.WARM_START_WITH_PREVIOUS_RESULT) :
    (setup Hm g Am b Cm u l S m wk res ruiz pstatus).2.2.1 = wk ∧
    (setup Hm g Am b Cm u l S m wk res ruiz pstatus).2.2.2.x =
        ruiz.scalePrimal res.x ∧
    (setup Hm g Am b Cm u l S m wk res ruiz pstatus).2.2.2.y =
        ruiz.scaleDualEq res.y ∧
    (setup Hm g Am b Cm u l S m wk res ruiz pstatus).2.2.2.z =
        ruiz.scaleDualIn res.z ∧
    (setup Hm g Am b Cm u l S m wk res ruiz pstatus).2.2.2.n_ext = 0 ∧
    (setup Hm g Am b Cm u l S m wk res ruiz pstatus).2.2.2.n_tot = 0 ∧
    (setup Hm g Am b Cm u l S m wk res ruiz pstatus).2.2.2.n_mu_change = 0 ∧
    (setup Hm g Am b Cm u l S m wk res ruiz pstatus).2.2.2.mu_eq = res.mu_eq ∧
    (setup Hm g Am b Cm u l S m wk res ruiz pstatus).2.2.2.mu_in = res.mu_in ∧
    (setup Hm g Am b Cm u l S m wk res ruiz pstatus).2.2.2.rho = res.rho ∧
    (setup Hm g Am b Cm u l S m wk res ruiz pstatus).2.2.2.n_c = res.n_c := by
  simp [setup, hpol, results_cleanup_statistics]

/-- Witness for C8 at a concrete warm-start-with-previous-result setup. -/
theorem C8_witness :
    (setup [[1]] [0] [] [] [] [] []
        { settingsBase with initial_guess := .WARM_START_WITH_PREVIOUS_RESULT }
        exSolvedData (wkZero exSolvedData)
        { resZero exSolvedData with n_ext := 7 } idPrecond .EXECUTE).2.2.1 =
      wkZero exSolvedData ∧
    (setup [[1]] [0] [] [] [] [] []
        { settingsBase with initial_guess := .WARM_START_WITH_PREVIOUS_RESULT }
        exSolvedData (wkZero exSolvedData)
        { resZero exSolvedData with n_ext := 7 } idPrecond .EXECUTE).2.2.2.x =
      idPrecond.scalePrimal ({ resZero exSolvedData with n_ext := 7 } : QPResults).x ∧
    (setup [[1]] [0] [] [] [] [] []
        { settingsBase with initial_guess := .WARM_START_WITH_PREVIOUS_RESULT }
        exSolvedData (wkZero exSolvedData)
        { resZero exSolvedData with n_ext := 7 } idPrecond .EXECUTE).2.2.2.y =
      idPrecond.scaleDualEq ({ resZero exSolvedData with n_ext := 7 } : QPResults).y ∧
    (setup [[1]] [0] [] [] [] [] []
        { settingsBase with initial_guess := .WARM_START_WITH_PREVIOUS_RESULT }
        exSolvedData (wkZero exSolvedData)
        { resZero exSolvedData with n_ext := 7 } idPrecond .EXECUTE).2.2.2.z =
      idPrecond.scaleDualIn ({ resZero exSolvedData with n_ext := 7 } : QPResults).z ∧
    (setup [[1]] [0] [] [] [] [] []
        { settingsBase with initial_guess := .WARM_START_WITH_PREVIOUS_RESULT }
        exSolvedData (wkZero exSolvedData)
        { resZero exSolvedData with n_ext := 7 } idPrecond .EXECUTE).2.2.2.n_ext = 0 ∧
    (setup [[1]] [0] [] [] [] [] []
        { settingsBase with initial_guess := .WARM_START_WITH_PREVIOUS_RESULT }
        exSolvedData (wkZero exSolvedData)
        { resZero exSolvedData with n_ext := 7 } idPrecond .EXECUTE).2.2.2.n_tot = 0 ∧
    (setup [[1]] [0] [] [] [] [] []
        { settingsBase with initial_guess := .WARM_START_WITH_PREVIOUS_RESULT }
        exSolvedData (wkZero exSolvedData)
        { resZero exSolvedData with n_ext := 7 } idPrecond .EXECUTE).2.2.2.n_mu_change = 0 ∧
    (setup [[1]] [0] [] [] [] [] []
        { settingsBase with initial_guess := .WARM_START_WITH_PREVIOUS_RESULT }
        exSolvedData (wkZero exSolvedData)
        { resZero exSolvedData with n_ext := 7 } idPrecond .EXECUTE).2.2.2.mu_eq =
      ({ resZero exSolvedData with n_ext := 7 } : QPResults).mu_eq ∧
    (setup [[1]] [0] [] [] [] [] []
        { settingsBase with initial_guess := .WARM_START_WITH_PREVIOUS_RESULT }
        exSolvedData (wkZero exSolvedData)
        { resZero exSolvedData with n_ext := 7 } idPrecond .EXECUTE).2.2.2.mu_in =
      ({ resZero exSolvedData with n_ext := 7 } : QPResults).mu_in ∧
    (setup [[1]] [0] [] [] [] [] []
        { settingsBase with initial_guess := .WARM_START_WITH_PREVIOUS_RESULT }
        exSolvedData (wkZero exSolvedData)
        { resZero exSolvedData with n_ext := 7 } idPrecond .EXECUTE).2.2.2.rho =
      ({ resZero exSolvedData with n_ext := 7 } : QPResults).rho ∧
    (setup [[1]] [0] [] [] [] [] []
        { settingsBase with initial_guess := .WARM_START_WITH_PREVIOUS_RESULT }
        exSolvedData (wkZero exSolvedData)
        { resZero exSolvedData with n_ext := 7 } idPrecond .EXECUTE).2.2.2.n_c =
      ({ resZero exSolvedData with n_ext := 7 } : QPResults).n_c :=
  C8_setup_warm_previous [[1]] [0] [] [] [] [] []
    { settingsBase with initial_guess := .WARM_START_WITH_PREVIOUS_RESULT }
    exSolvedData (wkZero exSolvedData)
    { resZero exSolvedData with n_ext := 7 } idPrecond .EXECUTE rfl

/-- Invariant lemma for the refinement loop: if the `it_stability == 2`
break fires, the last two passes each strictly increased the residual norm.
The invariants carried along the loop are that `preverr` heads the norm
history and that a stability count of 1 certifies one strict increase. -/
theorem refine_loop_stalled_aux {σ : Type} (m : QPData) (sc : ScaledData)
    (O : Oracle σ) (eps : ℚ) (inner : ℕ) (res : QPResults) (bij : List ℕ)
    (rhs : Vec) (ldl : σ) :
    ∀ (k it stab : ℕ) (dw err : Vec) (preverr : ℚ) (hist : List ℚ),
      hist ≠ [] →
      preverr = hist.headD 0 →
      (stab = 1 → ∃ b a t, hist = b :: a :: t ∧ a < b) →
      (refine_loop m sc O eps inner res bij rhs ldl k it stab dw err preverr
          hist).reason = RefineReason.stalled →
      ∃ c b a t,
        (refine_loop m sc O eps inner res bij rhs ldl k it stab dw err preverr
            hist).hist = c :: b :: a :: t ∧ a < b ∧ b < c := by
  intro k
  induction k with
  | zero =>
    intro it stab dw err preverr hist _ _ _ hreason
    rw [refine_loop] at hreason
    split at hreason <;> simp_all
  | succ k ih =>
    intro it stab dw err preverr hist hne hprev hstab hreason
    rw [refine_loop] at hreason ⊢
    by_cases hcv : infty_norm (err.take inner) < eps
    · rw [if_pos hcv] at hreason
      simp at hreason
    · rw [if_neg hcv] at hreason ⊢
      set e := infty_norm ((iterative_residual m sc res bij rhs
        (setRange dw 0 (vadd (dw.take inner) (O.ldlSolve ldl (err.take inner))))
        (setRange err 0 (zeroVec inner)) inner).take inner) with he
      by_cases h2 : (if preverr < e then stab + 1 else 0) = 2
      · rw [if_pos h2] at hreason ⊢
        by_cases hlt : preverr < e
        · rw [if_pos hlt] at h2
          have hs1 : stab = 1 := by omega
          obtain ⟨b, a, t, hh, hab⟩ := hstab hs1
          refine ⟨e, b, a, t, by rw [hh], hab, ?_⟩
          have hpb : preverr = b := by rw [hprev, hh]; rfl
          rwa [hpb] at hlt
        · rw [if_neg hlt] at h2
          omega
      · rw [if_neg h2] at hreason ⊢
        refine ih _ _ _ _ _ _ (by simp) rfl ?_ hreason
        intro hs1
        by_cases hlt : preverr < e
        · rcases hne' : hist with _ | ⟨h0, t0⟩
          · exact absurd hne' hne
          · refine ⟨e, h0, t0, rfl, ?_⟩
            have hph : preverr = h0 := by rw [hprev, hne']; rfl
            rwa [hph] at hlt
        · rw [if_neg hlt] at hs1
          omega

/-- C4 (amended): when the refinement loop of
`iterative_solve_with_permut_fact` breaks through its stability counter
(rather than converging or exhausting `nb_iterative_refinement`), the last
two refinement passes each *strictly increased* the residual infinity norm
(passes where the norm stays equal reset the counter instead of advancing
it).  The loop is entered as in the source with `it_stability = 0` and the
history holding the initial residual norm. -/
theorem C4_refine_stall_strict {σ : Type} (m : QPData) (sc : ScaledData)
    (O : Oracle σ) (eps : ℚ) (inner : ℕ) (res : QPResults) (bij : List ℕ)
    (rhs : Vec) (ldl : σ) (k it : ℕ) (dw err : Vec) (e0 : ℚ)
    (hreason : (refine_loop m sc O eps inner res bij rhs ldl k it 0 dw err e0
        [e0]).reason = RefineReason.stalled) :
    ∃ c b a t,
      (refine_loop m sc O eps inner res bij rhs ldl k it 0 dw err e0
          [e0]).hist = c :: b :: a :: t ∧ a < b ∧ b < c :=
  refine_loop_stalled_aux m sc O eps inner res bij rhs ldl k it 0 dw err e0
    [e0] (by simp) rfl (fun hh => absurd hh (by decide)) hreason

/-- Witness for C4: a concrete run whose residual norms go `2, 4, 8`, so
the loop stalls after two strictly increasing passes. -/
theorem C4_witness :
    ∃ c b a t,
      (refine_loop exRefineData (scOf exRefineData) oracleBase 1 1 exC4res
          [] [1] () 10 1 0 [1] [2] 2 [2]).hist = c :: b :: a :: t ∧
        a < b ∧ b < c :=
  C4_refine_stall_strict exRefineData (scOf exRefineData) oracleBase 1 1
    exC4res [] [1] () 10 1 [1] [2] 2
    (of_decide_eq_true (by with_unfolding_all rfl))

/-- Counterexample to C4 as stated: a run whose residual norm stays exactly
equal across every pass (`hist = [1,1,1,1,1,1]`) — so two consecutive
iterations "fail to decrease" the norm from the second pass on — yet the
loop never breaks through the stability counter and only stops when the
iteration count reaches the refinement bound. -/
theorem C4_counterexample :
    (refine_loop exRefineData (scOf exRefineData) oracleSolveZero (1 / 2) 1
        (resZero exRefineData) [] [1] () 5 1 0 [0] [1] 1 [1]).reason =
      RefineReason.budget ∧
    (refine_loop exRefineData (scOf exRefineData) oracleSolveZero (1 / 2) 1
        (resZero exRefineData) [] [1] () 5 1 0 [0] [1] 1 [1]).hist =
      [1, 1, 1, 1, 1, 1] ∧
    (refine_loop exRefineData (scOf exRefineData) oracleSolveZero (1 / 2) 1
        (resZero exRefineData) [] [1] () 5 1 0 [0] [1] 1 [1]).it = 6 :=
  of_decide_eq_true (by with_unfolding_all rfl)

/-- C3 (amended): a pass of the correction-guess loop exits through the
small-step break exactly when `‖α·Δx‖∞ < 10⁻¹¹`, and through the
convergence break exactly when that failed and the freshly recomputed dual
residual satisfies
`‖dual_residual‖∞ ≤ ε_int · (max(‖g_scaled‖∞, ‖Hx‖∞, ‖Aᵀy‖∞, ‖Cᵀz‖∞) + 1)`
at the updated iterate — the relative factor is `1` plus a *maximum* that
also includes the scaled-gradient norm, not `1` plus the sum of the three
norms; otherwise the pass falls through to the next iteration. -/
theorem C3_cg_exit_characterization {σ : Type} (S : QPSettings) (m : QPData)
    (sc : ScaledData) (O : Oracle σ) (eps : ℚ) (iter : ℕ) (res : QPResults)
    (wk : QPWorkspace σ) :
    ((correction_guess_step S m sc O eps iter res wk).exit = CGStepExit.smallStep ↔
      infty_norm (smul (correction_guess_step S m sc O eps iter res wk).wk.alpha
          ((correction_guess_step S m sc O eps iter res wk).wk.dw_aug.take m.dim)) <
        1 / 10 ^ 11) ∧
    (∀ e, (correction_guess_step S m sc O eps iter res wk).exit =
        CGStepExit.convergedExit e →
      e = infty_norm (correction_guess_step S m sc O eps iter res wk).wk.dual_residual_scaled ∧
      e ≤ eps * (max2 (max2 (max2 sc.correction_guess_rhs_g
            (infty_norm (matVec sc.H_scaled
              (correction_guess_step S m sc O eps iter res wk).res.x)))
          (infty_norm (matTVec m.dim sc.A_scaled
            (correction_guess_step S m sc O eps iter res wk).res.y)))
          (infty_norm (matTVec m.dim sc.C_scaled
            (correction_guess_step S m sc O eps iter res wk).res.z)) + 1)) ∧
    (∀ e, (correction_guess_step S m sc O eps iter res wk).exit =
        CGStepExit.nextIter e →
      ¬ infty_norm (smul (correction_guess_step S m sc O eps iter res wk).wk.alpha
          ((correction_guess_step S m sc O eps iter res wk).wk.dw_aug.take m.dim)) <
        1 / 10 ^ 11 ∧
      ¬ e ≤ eps * (max2 (max2 (max2 sc.correction_guess_rhs_g
            (infty_norm (matVec sc.H_scaled
              (correction_guess_step S m sc O eps iter res wk).res.x)))
          (infty_norm (matTVec m.dim sc.A_scaled
            (correction_guess_step S m sc O eps iter res wk).res.y)))
          (infty_norm (matTVec m.dim sc.C_scaled
            (correction_guess_step S m sc O eps iter res wk).res.z)) + 1)) := by
  simp only [correction_guess_step]
  split_ifs <;> dsimp only
  all_goals
    first
    | exact ⟨iff_of_true rfl (by assumption),
        fun e he => absurd he (by simp),
        fun e he => absurd he (by simp)⟩
    | (refine ⟨iff_of_false (by simp) (by assumption), ?_,
          fun e he => absurd he (by simp)⟩
       intro e he
       cases he
       exact ⟨rfl, by assumption⟩)
    | (refine ⟨iff_of_false (by simp) (by assumption),
          fun e he => absurd he (by simp), ?_⟩
       intro e he
       cases he
       exact ⟨by assumption, by assumption⟩)

/-- Counterexample to C3 as stated: a correction-guess run that exits
through the convergence break (at the first pass, with `err_in = 10`)
although neither `‖α·Δx‖∞ < 10⁻¹¹` holds nor
`‖dual_residual‖∞ ≤ ε_int · (1 + ‖Hx‖∞ + ‖Aᵀy‖∞ + ‖Cᵀz‖∞)` — the code's
threshold uses `max(‖g_scaled‖∞, ‖Hx‖∞, ‖Aᵀy‖∞, ‖Cᵀz‖∞) + 1` instead, and
here `‖g_scaled‖∞ = 10` makes the code exit while the claimed bound
`1·(1+0+0+0) = 1` fails. -/
theorem C3_counterexample :
    (correction_guess settingsBase exCGData (scOf exCGData) oracleSolveOne 1
        exC3res exC3wk).reason = CGReason.converged ∧
    (correction_guess settingsBase exCGData (scOf exCGData) oracleSolveOne 1
        exC3res exC3wk).err_in = 10 ∧
    ¬ ((correction_guess settingsBase exCGData (scOf exCGData) oracleSolveOne 1
        exC3res exC3wk).err_in ≤
      1 * (1 + (infty_norm (matVec (scOf exCGData).H_scaled
            (correction_guess settingsBase exCGData (scOf exCGData) oracleSolveOne 1
              exC3res exC3wk).res.x) +
          infty_norm (matTVec exCGData.dim (scOf exCGData).A_scaled
            (correction_guess settingsBase exCGData (scOf exCGData) oracleSolveOne 1
              exC3res exC3wk).res.y) +
          infty_norm (matTVec exCGData.dim (scOf exCGData).C_scaled
            (correction_guess settingsBase exCGData (scOf exCGData) oracleSolveOne 1
              exC3res exC3wk).res.z)))) ∧
    ¬ infty_norm (smul
        (correction_guess settingsBase exCGData (scOf exCGData) oracleSolveOne 1
          exC3res exC3wk).wk.alpha
        ((correction_guess settingsBase exCGData (scOf exCGData) oracleSolveOne 1
          exC3res exC3wk).wk.dw_aug.take exCGData.dim)) < 1 / 10 ^ 11 :=
  of_decide_eq_true (by with_unfolding_all rfl)

/-- The primal residual norm returned by `global_primal_residual` is the
pure recomputation from the iterate. -/
theorem global_primal_residual_lhs {σ : Type} (m : QPData) (sc : ScaledData)
    (res : QPResults) (wk : QPWorkspace σ) :
    (global_primal_residual m sc res wk).lhs = primal_lhs_of m sc res.x := rfl

/-- `rhs0_eq` of `global_primal_residual` is `‖Ax‖∞`. -/
theorem global_primal_residual_rhs0_eq {σ : Type} (m : QPData) (sc : ScaledData)
    (res : QPResults) (wk : QPWorkspace σ) :
    (global_primal_residual m sc res wk).rhs0_eq = primal_rhs0_eq_of sc res.x := rfl

/-- `rhs0_in` of `global_primal_residual` is `‖Cx‖∞`. -/
theorem global_primal_residual_rhs0_in {σ : Type} (m : QPData) (sc : ScaledData)
    (res : QPResults) (wk : QPWorkspace σ) :
    (global_primal_residual m sc res wk).rhs0_in = primal_rhs0_in_of sc res.x := rfl

/-- The dual residual norm returned by `global_dual_residual` is the pure
recomputation from the iterate. -/
theorem global_dual_residual_lhs {σ : Type} (m : QPData) (sc : ScaledData)
    (res : QPResults) (wk : QPWorkspace σ) :
    (global_dual_residual m sc res wk).lhs = dual_lhs_of m sc res := rfl

/-- C6 (amended): an outer iteration of `qp_solve` performs the
`refactorize` call (setting `ρ` to `refactor_rho_threshold`) exactly when
the primal feasibility check passes, the dual residual norm is at least
`refactor_dual_feasibility_threshold` — a dedicated settings threshold, not
the failure of the dual feasibility check — and
`ρ ≠ refactor_rho_threshold`. -/
theorem C6_refactor_trigger {σ : Type} (S : QPSettings) (m : QPData)
    (sc : ScaledData) (O : Oracle σ) (ee ei eei epsmin : ℚ)
    (res : QPResults) (wk : QPWorkspace σ) :
    (qpSolveIter S m sc O ee ei eei epsmin res wk).refactored = true ↔
      (primal_lhs_of m sc res.x ≤ S.eps_abs +
          (if S.eps_rel ≠ 0 then
            S.eps_rel * primal_rel_max sc (primal_rhs0_eq_of sc res.x)
              (primal_rhs0_in_of sc res.x)
          else 0) ∧
        S.refactor_dual_feasibility_threshold ≤ dual_lhs_of m sc res ∧
        res.rho ≠ S.refactor_rho_threshold) :=
  ⟨fun h => of_decide_eq_true h, fun h => decide_eq_true h⟩

/-- Counterexample to C6 as stated: an outer iteration in which the primal
check passes, the dual check fails, and `ρ ≠ refactor_rho_threshold`, yet
no refactorization happens — because the code triggers on
`dual_feasibility_lhs ≥ refactor_dual_feasibility_threshold` (here
`2 < 100`), not on the failure of the dual feasibility check. -/
theorem C6_counterexample :
    (qpSolveIter settingsBase exRefacData (scOf exRefacData) oracleBase
        (1 / 2) 1 1 (1 / 10 ^ 9) exC6res (wkZero exRefacData)).refactored = false ∧
    primal_lhs_of exRefacData (scOf exRefacData) exC6res.x ≤
      settingsBase.eps_abs +
        (if settingsBase.eps_rel ≠ 0 then
          settingsBase.eps_rel * primal_rel_max (scOf exRefacData)
            (primal_rhs0_eq_of (scOf exRefacData) exC6res.x)
            (primal_rhs0_in_of (scOf exRefacData) exC6res.x)
        else 0) ∧
    ¬ (dual_lhs_of exRefacData (scOf exRefacData) exC6res ≤
      settingsBase.eps_abs +
        (if settingsBase.eps_rel ≠ 0 then
          settingsBase.eps_rel * dual_rel_max (scOf exRefacData)
            (dual_rhs0_of (scOf exRefacData) exC6res)
            (dual_rhs1_of exRefacData (scOf exRefacData) exC6res)
            (dual_rhs3_of exRefacData (scOf exRefacData) exC6res)
        else 0)) ∧
    exC6res.rho ≠ settingsBase.refactor_rho_threshold := by
  set_option maxRecDepth 100000 in
  set_option maxHeartbeats 2000000 in
  exact of_decide_eq_true (by with_unfolding_all rfl)

/-- `remove_loop` leaves `(status, n_ext)` unchanged. -/
theorem remove_loop_core {σ : Type} (m : QPData) (O : Oracle σ) :
    ∀ (fuel : ℕ) (res : QPResults) (wk : QPWorkspace σ),
      resCore (remove_loop m O fuel res wk).1 = resCore res := by
  intro fuel
  induction fuel with
  | zero => intro res wk; rfl
  | succ f ih =>
    intro res wk
    rw [remove_loop]
    cases removal_candidate res wk m.n_in with
    | none => rfl
    | some i => rw [ih]; rfl

/-- `active_set_change` leaves `(status, n_ext)` unchanged. -/
theorem active_set_change_core {σ : Type} (m : QPData) (sc : ScaledData)
    (O : Oracle σ) (res : QPResults) (wk : QPWorkspace σ) :
    resCore (active_set_change m sc O res wk).1 = resCore res := by
  unfold active_set_change
  have hfold : ∀ (l : List ℕ) (p : QPResults × QPWorkspace σ),
      resCore (List.foldl (fun (p : QPResults × QPWorkspace σ) i =>
        if p.2.active_inequalities.getD i false = true ∧
           ¬ p.2.current_bijection_map.getD i 0 < p.1.n_c then
          add_active_row m sc O i p.1 p.2
        else p) p l).1 = resCore p.1 := by
    intro l
    induction l with
    | nil => intro p; rfl
    | cons a t ih =>
      intro p
      rw [List.foldl_cons, ih]
      split
      · rfl
      · rfl
  rw [hfold]
  exact remove_loop_core m O m.n_in res wk

/-- `newton_step` leaves `(status, n_ext)` unchanged. -/
theorem newton_step_core {σ : Type} (S : QPSettings) (m : QPData)
    (sc : ScaledData) (O : Oracle σ) (eps : ℚ) (res : QPResults)
    (wk : QPWorkspace σ) :
    resCore (newton_step S m sc O eps res wk).1 = resCore res := by
  unfold newton_step
  exact active_set_change_core m sc O res _

/-- `initial_guess` leaves `(status, n_ext)` unchanged. -/
theorem initial_guess_core {σ : Type} (S : QPSettings) (m : QPData)
    (sc : ScaledData) (O : Oracle σ) (res : QPResults) (wk : QPWorkspace σ)
    (ze : Vec) (eps_int : ℚ) :
    resCore (initial_guess S m sc O res wk ze eps_int).res = resCore res := by
  unfold initial_guess
  exact active_set_change_core m sc O res _

/-- One correction-guess pass leaves `(status, n_ext)` unchanged. -/
theorem correction_guess_step_core {σ : Type} (S : QPSettings) (m : QPData)
    (sc : ScaledData) (O : Oracle σ) (eps : ℚ) (iter : ℕ) (res : QPResults)
    (wk : QPWorkspace σ) :
    resCore (correction_guess_step S m sc O eps iter res wk).res = resCore res := by
  simp only [correction_guess_step]
  split_ifs <;> exact newton_step_core S m sc O eps res wk

/-- The correction-guess loop leaves `(status, n_ext)` unchanged. -/
theorem correction_guess_loop_core {σ : Type} (S : QPSettings) (m : QPData)
    (sc : ScaledData) (O : Oracle σ) (eps : ℚ) :
    ∀ (k iter : ℕ) (err_in : ℚ) (res : QPResults) (wk : QPWorkspace σ),
      resCore (correction_guess_loop S m sc O eps k iter err_in res wk).res =
        resCore res := by
  intro k
  induction k with
  | zero => intro iter err_in res wk; rfl
  | succ k ih =>
    intro iter err_in res wk
    rw [correction_guess_loop]
    rcases hx : (correction_guess_step S m sc O eps iter res wk).exit with _ | e | e
    · simpa using correction_guess_step_core S m sc O eps iter res wk
    · simpa using correction_guess_step_core S m sc O eps iter res wk
    · rw [ih]
      exact correction_guess_step_core S m sc O eps iter res wk

/-- `correction_guess` leaves `(status, n_ext)` unchanged. -/
theorem correction_guess_core {σ : Type} (S : QPSettings) (m : QPData)
    (sc : ScaledData) (O : Oracle σ) (eps : ℚ) (res : QPResults)
    (wk : QPWorkspace σ) :
    resCore (correction_guess S m sc O eps res wk).res = resCore res :=
  correction_guess_loop_core S m sc O eps S.max_iter_in 0 (10 ^ 6) res wk

/-- `bcl_update` leaves `(status, n_ext)` unchanged. -/
theorem bcl_update_core {σ : Type} (S : QPSettings) (O : Oracle σ)
    (lhs ee ei eei epsmin : ℚ) (pending : PendingMu) (res : QPResults)
    (wk : QPWorkspace σ) :
    resCore (bcl_update S O lhs ee ei eei epsmin pending res wk).res =
      resCore res := by
  unfold bcl_update
  split_ifs <;> rfl

/-- `cold_restart_and_mu_update` leaves `(status, n_ext)` unchanged. -/
theorem cold_restart_core {σ : Type} (S : QPSettings) (m : QPData)
    (sc : ScaledData) (O : Oracle σ) (p_top p_new : ℚ) (pending : PendingMu)
    (res : QPResults) (wk : QPWorkspace σ) :
    resCore (cold_restart_and_mu_update S m sc O p_top p_new pending res wk).res =
      resCore res := by
  simp only [cold_restart_and_mu_update]
  split_ifs <;> rfl

/-- `finish_iteration` leaves `(status, n_ext)` unchanged. -/
theorem finish_iteration_core {σ : Type} (S : QPSettings) (m : QPData)
    (sc : ScaledData) (O : Oracle σ)
    (ee ei eei epsmin p_top p_new : ℚ) (pending : PendingMu)
    (res : QPResults) (wk : QPWorkspace σ) :
    resCore (finish_iteration S m sc O ee ei eei epsmin p_top p_new pending
        res wk).res = resCore res := by
  unfold finish_iteration
  rw [cold_restart_core]
  exact bcl_update_core S O p_new ee ei eei epsmin pending res wk

/-- `status` form of `initial_guess_core`. -/
theorem initial_guess_status {σ : Type} (S : QPSettings) (m : QPData)
    (sc : ScaledData) (O : Oracle σ) (res : QPResults) (wk : QPWorkspace σ)
    (ze : Vec) (eps_int : ℚ) :
    (initial_guess S m sc O res wk ze eps_int).res.status = res.status :=
  congrArg Prod.fst (initial_guess_core S m sc O res wk ze eps_int)

/-- `n_ext` form of `initial_guess_core`. -/
theorem initial_guess_n_ext {σ : Type} (S : QPSettings) (m : QPData)
    (sc : ScaledData) (O : Oracle σ) (res : QPResults) (wk : QPWorkspace σ)
    (ze : Vec) (eps_int : ℚ) :
    (initial_guess S m sc O res wk ze eps_int).res.n_ext = res.n_ext :=
  congrArg Prod.snd (initial_guess_core S m sc O res wk ze eps_int)

/-- `status` form of `correction_guess_core`. -/
theorem correction_guess_status {σ : Type} (S : QPSettings) (m : QPData)
    (sc : ScaledData) (O : Oracle σ) (eps : ℚ) (res : QPResults)
    (wk : QPWorkspace σ) :
    (correction_guess S m sc O eps res wk).res.status = res.status :=
  congrArg Prod.fst (correction_guess_core S m sc O eps res wk)

/-- `n_ext` form of `correction_guess_core`. -/
theorem correction_guess_n_ext {σ : Type} (S : QPSettings) (m : QPData)
    (sc : ScaledData) (O : Oracle σ) (eps : ℚ) (res : QPResults)
    (wk : QPWorkspace σ) :
    (correction_guess S m sc O eps res wk).res.n_ext = res.n_ext :=
  congrArg Prod.snd (correction_guess_core S m sc O eps res wk)

/-- `status` form of `finish_iteration_core`. -/
theorem finish_iteration_status {σ : Type} (S : QPSettings) (m : QPData)
    (sc : ScaledData) (O : Oracle σ)
    (ee ei eei epsmin p_top p_new : ℚ) (pending : PendingMu)
    (res : QPResults) (wk : QPWorkspace σ) :
    (finish_iteration S m sc O ee ei eei epsmin p_top p_new pending
        res wk).res.status = res.status :=
  congrArg Prod.fst
    (finish_iteration_core S m sc O ee ei eei epsmin p_top p_new pending res wk)

/-- `n_ext` form of `finish_iteration_core`. -/
theorem finish_iteration_n_ext {σ : Type} (S : QPSettings) (m : QPData)
    (sc : ScaledData) (O : Oracle σ)
    (ee ei eei epsmin p_top p_new : ℚ) (pending : PendingMu)
    (res : QPResults) (wk : QPWorkspace σ) :
    (finish_iteration S m sc O ee ei eei epsmin p_top p_new pending
        res wk).res.n_ext = res.n_ext :=
  congrArg Prod.snd
    (finish_iteration_core S m sc O ee ei eei epsmin p_top p_new pending res wk)

/-- `qp_second_check` leaves `(status, n_ext)` unchanged. -/
theorem qp_second_check_core {σ : Type} (S : QPSettings) (m : QPData)
    (sc : ScaledData) (O : Oracle σ)
    (ee ei eei epsmin p_top : ℚ) (pending : PendingMu)
    (res6 : QPResults) (wk6 : QPWorkspace σ) :
    resCore (qp_second_check S m sc O ee ei eei epsmin p_top pending
        res6 wk6).res = resCore res6 := by
  simp only [qp_second_check]
  split_ifs <;>
    simp only [resCore, finish_iteration_status, finish_iteration_n_ext]

/-- `status` form of `qp_second_check_core`. -/
theorem qp_second_check_status {σ : Type} (S : QPSettings) (m : QPData)
    (sc : ScaledData) (O : Oracle σ)
    (ee ei eei epsmin p_top : ℚ) (pending : PendingMu)
    (res6 : QPResults) (wk6 : QPWorkspace σ) :
    (qp_second_check S m sc O ee ei eei epsmin p_top pending
        res6 wk6).res.status = res6.status :=
  congrArg Prod.fst
    (qp_second_check_core S m sc O ee ei eei epsmin p_top pending res6 wk6)

/-- `n_ext` form of `qp_second_check_core`. -/
theorem qp_second_check_n_ext {σ : Type} (S : QPSettings) (m : QPData)
    (sc : ScaledData) (O : Oracle σ)
    (ee ei eei epsmin p_top : ℚ) (pending : PendingMu)
    (res6 : QPResults) (wk6 : QPWorkspace σ) :
    (qp_second_check S m sc O ee ei eei epsmin p_top pending
        res6 wk6).res.n_ext = res6.n_ext :=
  congrArg Prod.snd
    (qp_second_check_core S m sc O ee ei eei epsmin p_top pending res6 wk6)

/-- `qp_iteration_rest` leaves `(status, n_ext)` unchanged. -/
theorem qp_iteration_rest_core {σ : Type} (S : QPSettings) (m : QPData)
    (sc : ScaledData) (O : Oracle σ)
    (ee ei eei epsmin p_top : ℚ) (pending : PendingMu)
    (res1 : QPResults) (wk2 : QPWorkspace σ) :
    resCore (qp_iteration_rest S m sc O ee ei eei epsmin p_top pending
        res1 wk2).res = resCore res1 := by
  simp only [qp_iteration_rest]
  split_ifs <;>
    simp only [resCore, qp_second_check_status, qp_second_check_n_ext,
      correction_guess_status, correction_guess_n_ext,
      initial_guess_status, initial_guess_n_ext]

/-- A full outer iteration leaves `(status, n_ext)` unchanged (the `n_ext`
increment happens in the loop wrapper, not in the iteration body). -/
theorem qpSolveIter_core {σ : Type} (S : QPSettings) (m : QPData)
    (sc : ScaledData) (O : Oracle σ) (ee ei eei epsmin : ℚ)
    (res : QPResults) (wk : QPWorkspace σ) :
    resCore (qpSolveIter S m sc O ee ei eei epsmin res wk).res = resCore res := by
  simp only [qpSolveIter]
  split_ifs <;>
    simp only [resCore, qp_iteration_rest_core] <;>
    first
      | rfl
      | exact congrArg (fun p => p) (qp_iteration_rest_core S m sc O ee ei eei
          epsmin _ _ _ _)

/-- `status` form of `qpSolveIter_core`. -/
theorem qpSolveIter_status {σ : Type} (S : QPSettings) (m : QPData)
    (sc : ScaledData) (O : Oracle σ) (ee ei eei epsmin : ℚ)
    (res : QPResults) (wk : QPWorkspace σ) :
    (qpSolveIter S m sc O ee ei eei epsmin res wk).res.status = res.status :=
  congrArg Prod.fst (qpSolveIter_core S m sc O ee ei eei epsmin res wk)

/-- `n_ext` form of `qpSolveIter_core`. -/
theorem qpSolveIter_n_ext {σ : Type} (S : QPSettings) (m : QPData)
    (sc : ScaledData) (O : Oracle σ) (ee ei eei epsmin : ℚ)
    (res : QPResults) (wk : QPWorkspace σ) :
    (qpSolveIter S m sc O ee ei eei epsmin res wk).res.n_ext = res.n_ext :=
  congrArg Prod.snd (qpSolveIter_core S m sc O ee ei eei epsmin res wk)

/-- The outer loop never writes the status field. -/
theorem qp_solve_loop_status {σ : Type} (S : QPSettings) (m : QPData)
    (sc : ScaledData) (O : Oracle σ) (eei epsmin : ℚ) :
    ∀ (k : ℕ) (ee ei : ℚ) (res : QPResults) (wk : QPWorkspace σ),
      (qp_solve_loop S m sc O eei epsmin k ee ei res wk).1.status = res.status := by
  intro k
  induction k with
  | zero => intro ee ei res wk; rfl
  | succ k ih =>
    intro ee ei res wk
    rw [qp_solve_loop]
    by_cases hs : (qpSolveIter S m sc O ee ei eei epsmin
        { res with n_ext := res.n_ext + 1 } wk).solvedNow
    · rw [if_pos hs]
      exact qpSolveIter_status S m sc O ee ei eei epsmin _ wk
    · rw [if_neg hs, ih]
      exact qpSolveIter_status S m sc O ee ei eei epsmin _ wk

/-- The outer loop increments `n_ext` at least once. -/
theorem qp_solve_loop_n_ext {σ : Type} (S : QPSettings) (m : QPData)
    (sc : ScaledData) (O : Oracle σ) (eei epsmin : ℚ) :
    ∀ (k : ℕ) (ee ei : ℚ) (res : QPResults) (wk : QPWorkspace σ),
      res.n_ext + 1 ≤ (qp_solve_loop S m sc O eei epsmin k ee ei res wk).1.n_ext := by
  intro k
  induction k with
  | zero => intro ee ei res wk; exact Nat.le_refl _
  | succ k ih =>
    intro ee ei res wk
    rw [qp_solve_loop]
    have heq : (qpSolveIter S m sc O ee ei eei epsmin
        { res with n_ext := res.n_ext + 1 } wk).res.n_ext = res.n_ext + 1 :=
      qpSolveIter_n_ext S m sc O ee ei eei epsmin _ wk
    by_cases hs : (qpSolveIter S m sc O ee ei eei epsmin
        { res with n_ext := res.n_ext + 1 } wk).solvedNow
    · rw [if_pos hs]
      show res.n_ext + 1 ≤ (qpSolveIter S m sc O ee ei eei epsmin
        { res with n_ext := res.n_ext + 1 } wk).res.n_ext
      rw [heq]
    · rw [if_neg hs]
      have h1 := ih (qpSolveIter S m sc O ee ei eei epsmin
          { res with n_ext := res.n_ext + 1 } wk).bcl_eta_ext
        (qpSolveIter S m sc O ee ei eei epsmin
          { res with n_ext := res.n_ext + 1 } wk).bcl_eta_in
        (qpSolveIter S m sc O ee ei eei epsmin
          { res with n_ext := res.n_ext + 1 } wk).res
        (qpSolveIter S m sc O ee ei eei epsmin
          { res with n_ext := res.n_ext + 1 } wk).wk
      rw [heq] at h1
      omega

/-- C2 (amended): every call of `qp_solve` terminates either through the
solved break or by exhausting the iteration budget (keeping the current
iterate), populates the objective value from the final iterate and
increments the outer-iteration counter — but it writes no status field:
`results.status` is left exactly as it was before the call. -/
theorem C2_qp_solve_amended {σ : Type} (S : QPSettings) (m : QPData)
    (sc : ScaledData) (O : Oracle σ) (res : QPResults) (wk : QPWorkspace σ) :
    (qp_solve S m sc O res wk).1.status = res.status ∧
    (qp_solve S m sc O res wk).1.objValue =
      objVal m (qp_solve S m sc O res wk).1.x ∧
    res.n_ext + 1 ≤ (qp_solve S m sc O res wk).1.n_ext ∧
    ((qp_solve S m sc O res wk).2.2 = SolveOutcome.solvedOutcome ∨
      (qp_solve S m sc O res wk).2.2 = SolveOutcome.maxIterOutcome) := by
  refine ⟨?_, rfl, ?_, ?_⟩
  · exact qp_solve_loop_status S m sc O _ _ S.max_iter _ _ res wk
  · exact qp_solve_loop_n_ext S m sc O _ _ S.max_iter _ _ res wk
  · rcases hh : (qp_solve S m sc O res wk).2.2 with _ | _
    · exact Or.inl rfl
    · exact Or.inr rfl

/-- Counterexample to C2 as stated: a concrete solve exhausting its
iteration budget (`max_iter = 0`) whose results still carry the initial
`Iterating` status — the solve set no `Solved` or `MaxIterReached` status
on the results, because this `qp_solve` writes no status field at all. -/
theorem C2_counterexample :
    (qp_solve { settingsBase with max_iter := 0 } exSolvedData
        (scOf exSolvedData) oracleBase (resZero exSolvedData)
        (wkZero exSolvedData)).1.status = QPStatus.iterating ∧
    QPStatus.iterating ≠ QPStatus.solvedStatus ∧
    QPStatus.iterating ≠ QPStatus.maxIterReachedStatus ∧
    (qp_solve { settingsBase with max_iter := 0 } exSolvedData
        (scOf exSolvedData) oracleBase (resZero exSolvedData)
        (wkZero exSolvedData)).2.2 = SolveOutcome.maxIterOutcome ∧
    (qp_solve { settingsBase with max_iter := 0 } exSolvedData
        (scOf exSolvedData) oracleBase (resZero exSolvedData)
        (wkZero exSolvedData)).1.n_ext = 1 :=
  of_decide_eq_true (by with_unfolding_all rfl)

/-- The first stopping check's threshold (with its `eps_rel ≠ 0` guard)
implies the unconditional `eps_abs + eps_rel·M` bound. -/
theorem le_rel_threshold (S : QPSettings) (M lhs : ℚ)
    (h : lhs ≤ S.eps_abs + (if S.eps_rel ≠ 0 then S.eps_rel * M else 0)) :
    lhs ≤ S.eps_abs + S.eps_rel * M := by
  split_ifs at h with he
  · exact h
  · rw [not_not] at he
    rw [he]
    simpa using h

/-- `finish_iteration` never reports a solved break. -/
theorem finish_iteration_solvedNow {σ : Type} (S : QPSettings) (m : QPData)
    (sc : ScaledData) (O : Oracle σ)
    (ee ei eei epsmin p_top p_new : ℚ) (pending : PendingMu)
    (res : QPResults) (wk : QPWorkspace σ) :
    (finish_iteration S m sc O ee ei eei epsmin p_top p_new pending
        res wk).solvedNow = false := rfl

/-- If the second stopping check takes the solved break, the recomputed
primal and dual residual norms of the returned iterate satisfy the
absolute-plus-relative stopping inequalities. -/
theorem qp_second_check_solved_bounds {σ : Type} (S : QPSettings)
    (m : QPData) (sc : ScaledData) (O : Oracle σ)
    (ee ei eei epsmin p_top : ℚ) (pending : PendingMu)
    (res6 : QPResults) (wk6 : QPWorkspace σ)
    (h : (qp_second_check S m sc O ee ei eei epsmin p_top pending
        res6 wk6).solvedNow = true) :
    primal_lhs_of m sc (qp_second_check S m sc O ee ei eei epsmin p_top
        pending res6 wk6).res.x ≤
      S.eps_abs + S.eps_rel * primal_rel_max sc
        (primal_rhs0_eq_of sc (qp_second_check S m sc O ee ei eei epsmin
          p_top pending res6 wk6).res.x)
        (primal_rhs0_in_of sc (qp_second_check S m sc O ee ei eei epsmin
          p_top pending res6 wk6).res.x) ∧
    dual_lhs_of m sc (qp_second_check S m sc O ee ei eei epsmin p_top
        pending res6 wk6).res ≤
      S.eps_abs + S.eps_rel * dual_rel_max sc
        (dual_rhs0_of sc (qp_second_check S m sc O ee ei eei epsmin p_top
          pending res6 wk6).res)
        (dual_rhs1_of m sc (qp_second_check S m sc O ee ei eei epsmin p_top
          pending res6 wk6).res)
        (dual_rhs3_of m sc (qp_second_check S m sc O ee ei eei epsmin p_top
          pending res6 wk6).res) := by
  simp only [qp_second_check] at h ⊢
  split_ifs at h ⊢ with h1 h2
  · exact ⟨h1, h2⟩
  · rw [finish_iteration_solvedNow] at h
    exact absurd h (by decide)
  · rw [finish_iteration_solvedNow] at h
    exact absurd h (by decide)

/-- If the post-step part of an outer iteration takes the solved break,
then the recomputed primal and dual residual norms of the returned iterate
satisfy the absolute-plus-relative stopping inequalities. -/
theorem qp_iteration_rest_solved_bounds {σ : Type} (S : QPSettings)
    (m : QPData) (sc : ScaledData) (O : Oracle σ)
    (ee ei eei epsmin p_top : ℚ) (pending : PendingMu)
    (res1 : QPResults) (wk2 : QPWorkspace σ)
    (h : (qp_iteration_rest S m sc O ee ei eei epsmin p_top pending
        res1 wk2).solvedNow = true) :
    primal_lhs_of m sc (qp_iteration_rest S m sc O ee ei eei epsmin p_top
        pending res1 wk2).res.x ≤
      S.eps_abs + S.eps_rel * primal_rel_max sc
        (primal_rhs0_eq_of sc (qp_iteration_rest S m sc O ee ei eei epsmin
          p_top pending res1 wk2).res.x)
        (primal_rhs0_in_of sc (qp_iteration_rest S m sc O ee ei eei epsmin
          p_top pending res1 wk2).res.x) ∧
    dual_lhs_of m sc (qp_iteration_rest S m sc O ee ei eei epsmin p_top
        pending res1 wk2).res ≤
      S.eps_abs + S.eps_rel * dual_rel_max sc
        (dual_rhs0_of sc (qp_iteration_rest S m sc O ee ei eei epsmin p_top
          pending res1 wk2).res)
        (dual_rhs1_of m sc (qp_iteration_rest S m sc O ee ei eei epsmin p_top
          pending res1 wk2).res)
        (dual_rhs3_of m sc (qp_iteration_rest S m sc O ee ei eei epsmin p_top
          pending res1 wk2).res) := by
  simp only [qp_iteration_rest] at h ⊢
  exact qp_second_check_solved_bounds S m sc O ee ei eei epsmin p_top
    pending _ _ h

/-- If an outer iteration takes either solved break, the returned iterate
satisfies the stopping inequalities (with the relative term of the first
check reduced to the unconditional form `eps_abs + eps_rel·max(...)`, which
agrees with it both when `eps_rel = 0` and when `eps_rel ≠ 0`). -/
theorem qpSolveIter_solved_bounds {σ : Type} (S : QPSettings) (m : QPData)
    (sc : ScaledData) (O : Oracle σ) (ee ei eei epsmin : ℚ)
    (res : QPResults) (wk : QPWorkspace σ)
    (h : (qpSolveIter S m sc O ee ei eei epsmin res wk).solvedNow = true) :
    primal_lhs_of m sc (qpSolveIter S m sc O ee ei eei epsmin res wk).res.x ≤
      S.eps_abs + S.eps_rel * primal_rel_max sc
        (primal_rhs0_eq_of sc (qpSolveIter S m sc O ee ei eei epsmin res wk).res.x)
        (primal_rhs0_in_of sc (qpSolveIter S m sc O ee ei eei epsmin res wk).res.x) ∧
    dual_lhs_of m sc (qpSolveIter S m sc O ee ei eei epsmin res wk).res ≤
      S.eps_abs + S.eps_rel * dual_rel_max sc
        (dual_rhs0_of sc (qpSolveIter S m sc O ee ei eei epsmin res wk).res)
        (dual_rhs1_of m sc (qpSolveIter S m sc O ee ei eei epsmin res wk).res)
        (dual_rhs3_of m sc (qpSolveIter S m sc O ee ei eei epsmin res wk).res) := by
  simp only [qpSolveIter] at h ⊢
  by_cases hc :
      (global_primal_residual m sc res wk).lhs ≤ S.eps_abs +
        (if S.eps_rel ≠ 0 then
          S.eps_rel * primal_rel_max sc (global_primal_residual m sc res wk).rhs0_eq
            (global_primal_residual m sc res wk).rhs0_in
        else 0) ∧
      (global_dual_residual m sc res (global_primal_residual m sc res wk).wk).lhs ≤
        S.eps_abs +
        (if S.eps_rel ≠ 0 then
          S.eps_rel * dual_rel_max sc
            (global_dual_residual m sc res (global_primal_residual m sc res wk).wk).rhs0
            (global_dual_residual m sc res (global_primal_residual m sc res wk).wk).rhs1
            (global_dual_residual m sc res (global_primal_residual m sc res wk).wk).rhs3
        else 0)
  · rw [if_pos hc] at h ⊢
    by_cases hr :
        (global_primal_residual m sc res wk).lhs ≤ S.eps_abs +
          (if S.eps_rel ≠ 0 then
            S.eps_rel * primal_rel_max sc (global_primal_residual m sc res wk).rhs0_eq
              (global_primal_residual m sc res wk).rhs0_in
          else 0) ∧
        S.refactor_dual_feasibility_threshold ≤
          (global_dual_residual m sc res (global_primal_residual m sc res wk).wk).lhs ∧
        res.rho ≠ S.refactor_rho_threshold
    · rw [if_pos hr]
      exact ⟨le_rel_threshold S _ _ hc.1, le_rel_threshold S _ _ hc.2⟩
    · rw [if_neg hr]
      exact ⟨le_rel_threshold S _ _ hc.1, le_rel_threshold S _ _ hc.2⟩
  · rw [if_neg hc] at h ⊢
    exact qp_iteration_rest_solved_bounds S m sc O ee ei eei epsmin _ _ _ _ h

/-- If the outer loop exits with the `Solved` outcome, the returned
results satisfy the stopping inequalities. -/
theorem qp_solve_loop_solved_bounds {σ : Type} (S : QPSettings) (m : QPData)
    (sc : ScaledData) (O : Oracle σ) (eei epsmin : ℚ) :
    ∀ (k : ℕ) (ee ei : ℚ) (res res1 : QPResults) (wk : QPWorkspace σ)
      (wk1 : QPWorkspace σ),
      qp_solve_loop S m sc O eei epsmin k ee ei res wk =
        (res1, wk1, SolveOutcome.solvedOutcome) →
      primal_lhs_of m sc res1.x ≤
        S.eps_abs + S.eps_rel * primal_rel_max sc
          (primal_rhs0_eq_of sc res1.x) (primal_rhs0_in_of sc res1.x) ∧
      dual_lhs_of m sc res1 ≤
        S.eps_abs + S.eps_rel * dual_rel_max sc (dual_rhs0_of sc res1)
          (dual_rhs1_of m sc res1) (dual_rhs3_of m sc res1) := by
  intro k
  induction k with
  | zero =>
    intro ee ei res res1 wk wk1 h
    have h2 : SolveOutcome.maxIterOutcome = SolveOutcome.solvedOutcome :=
      congrArg (fun p => p.2.2) h
    exact absurd h2 (by decide)
  | succ k ih =>
    intro ee ei res res1 wk wk1 h
    rw [qp_solve_loop] at h
    by_cases hs : (qpSolveIter S m sc O ee ei eei epsmin
        { res with n_ext := res.n_ext + 1 } wk).solvedNow
    · rw [if_pos hs] at h
      have hx : (qpSolveIter S m sc O ee ei eei epsmin
          { res with n_ext := res.n_ext + 1 } wk).res = res1 :=
        congrArg (fun p => p.1) h
      have hb := qpSolveIter_solved_bounds S m sc O ee ei eei epsmin
        { res with n_ext := res.n_ext + 1 } wk hs
      rw [hx] at hb
      exact hb
    · rw [if_neg hs] at h
      exact ih _ _ _ res1 _ wk1 h

/-- C1: if the outer solve loop exits with the `Solved` outcome, the
returned iterate satisfies both stopping inequalities: the primal residual
norm `max(‖Ax − b‖∞, ‖[Cx−u]⁺ + [Cx−l]⁻‖∞)` is at most
`ε_abs + ε_rel · max(‖Ax‖∞, ‖Cx‖∞, ‖b‖∞, ‖u‖∞, ‖l‖∞)` and the dual
residual norm `‖g + Hx + Aᵀy + Cᵀz‖∞` is at most
`ε_abs + ε_rel · max(‖Hx‖∞, ‖Aᵀy‖∞, ‖Cᵀz‖∞, ‖g‖∞)`.  The hypotheses fix
the precomputed norm constants of the scaled data to the model norms, as
`setup` computes them under the identity preconditioner. -/
theorem C1_solved_accuracy {σ : Type} (S : QPSettings) (m : QPData)
    (sc : ScaledData) (O : Oracle σ) (eei epsmin ee ei : ℚ) (k : ℕ)
    (res res1 : QPResults) (wk wk1 : QPWorkspace σ)
    (hb : sc.primal_feasibility_rhs_1_eq = infty_norm m.b)
    (hu : sc.primal_feasibility_rhs_1_in_u = infty_norm m.u)
    (hl : sc.primal_feasibility_rhs_1_in_l = infty_norm m.l)
    (hg : sc.dual_feasibility_rhs_2 = infty_norm m.g)
    (hrun : qp_solve_loop S m sc O eei epsmin k ee ei res wk =
        (res1, wk1, SolveOutcome.solvedOutcome)) :
    max2 (infty_norm (primal_eq_residual m sc res1.x))
        (infty_norm (primal_in_violation m sc res1.x)) ≤
      S.eps_abs + S.eps_rel *
        max2 (max2 (infty_norm (primal_eq_product sc res1.x))
                   (infty_norm (primal_in_product sc res1.x)))
             (max2 (max2 (infty_norm m.b) (infty_norm m.u))
                   (infty_norm m.l)) ∧
    infty_norm (dual_residual_vec m sc res1) ≤
      S.eps_abs + S.eps_rel *
        max2 (max2 (infty_norm (matTVec m.dim sc.C_scaled res1.z))
                   (infty_norm (matVec sc.H_scaled res1.x)))
             (max2 (infty_norm (matTVec m.dim sc.A_scaled res1.y))
                   (infty_norm m.g)) := by
  have h := qp_solve_loop_solved_bounds S m sc O eei epsmin k ee ei
    res res1 wk wk1 hrun
  simp only [primal_lhs_of, primal_rhs0_eq_of, primal_rhs0_in_of,
    primal_rel_max, dual_lhs_of, dual_rhs0_of, dual_rhs1_of, dual_rhs3_of,
    dual_rel_max, hb, hu, hl, hg] at h
  exact h

/-- Witness for C1: the concrete one-iteration run `exSolvedRun` exits
solved and its iterate satisfies both stopping inequalities. -/
theorem C1_witness :
    max2 (infty_norm (primal_eq_residual exSolvedData (scOf exSolvedData)
          exSolvedRun.1.x))
        (infty_norm (primal_in_violation exSolvedData (scOf exSolvedData)
          exSolvedRun.1.x)) ≤
      settingsBase.eps_abs + settingsBase.eps_rel *
        max2 (max2 (infty_norm (primal_eq_product (scOf exSolvedData)
                     exSolvedRun.1.x))
                   (infty_norm (primal_in_product (scOf exSolvedData)
                     exSolvedRun.1.x)))
             (max2 (max2 (infty_norm exSolvedData.b)
                         (infty_norm exSolvedData.u))
                   (infty_norm exSolvedData.l)) ∧
    infty_norm (dual_residual_vec exSolvedData (scOf exSolvedData)
        exSolvedRun.1) ≤
      settingsBase.eps_abs + settingsBase.eps_rel *
        max2 (max2 (infty_norm (matTVec exSolvedData.dim
                     (scOf exSolvedData).C_scaled exSolvedRun.1.z))
                   (infty_norm (matVec (scOf exSolvedData).H_scaled
                     exSolvedRun.1.x)))
             (max2 (infty_norm (matTVec exSolvedData.dim
                     (scOf exSolvedData).A_scaled exSolvedRun.1.y))
                   (infty_norm exSolvedData.g)) :=
  C1_solved_accuracy settingsBase exSolvedData (scOf exSolvedData)
    oracleBase 1 (1 / 10 ^ 9) 1 1 1 (resZero exSolvedData) exSolvedRun.1
    (wkZero exSolvedData) exSolvedRun.2.1 rfl rfl rfl rfl
    (by with_unfolding_all rfl)

end ProxQP
